import Mathlib

/-!
Shallow embedding of the receipt renderer in `src/api/receipt_api.py`.

The two core entry points, `build_receipt_image` (ESC/POS raster path)
and `build_receipt_pdf` (document path), are embedded as pure functions
from an abstract payload to the ordered sequence of draw operations each
pass emits, together with the measured cursor position, the resolved
surface height and the reconciled monetary figures.  Machine floats are
modelled as rationals; a payload value on which Python's `float`,
arithmetic and fixed-point formatting all raise (such as `None`) is
modelled by a dedicated constructor, and the fallible parts of the code
return `Except`.  Text-width measurement (PIL `textbbox` / reportlab
`stringWidth`) is an external deterministic metric and is passed in as a
function parameter used identically by both rendering passes, exactly as
the source uses one font object for both canvases.
-/

set_option maxRecDepth 10000

namespace Receipt

/-- A monetary field value taken from the JSON payload: either a number
(Python int/float, modelled as a rational) or a non-numeric value such
as `None`, on which `float`, arithmetic and fixed-point string
formatting all raise. -/
inductive MVal where
  | num (q : ℚ)
  | bad
deriving DecidableEq, Repr

/-- Python `float(v)`: succeeds on a number, raises otherwise. -/
def pyFloat : MVal → Except Unit ℚ
  | .num q => .ok q
  | .bad => .error ()

/-- Python `a * b` for two payload values (the eager `qty * price`
default in `item.get`): numbers multiply, a `None`-like operand raises
`TypeError`. -/
def pyMul : MVal → MVal → Except Unit MVal
  | .num a, .num b => .ok (.num (a * b))
  | _, _ => .error ()

/-- Python `acc + v` with a numeric accumulator, as in the unguarded
`item_sum += item.get(...)` of the PDF builder: raises when `v` is
non-numeric. -/
def pyAdd (acc : ℚ) : MVal → Except Unit ℚ
  | .num q => .ok (acc + q)
  | .bad => .error ()

/-- Python `v or 0` followed by `float`: a falsy value (the number 0 or
`None`) yields 0, any other number passes through, so the subsequent
`float` call always succeeds. -/
def pyOr0 : MVal → ℚ
  | .num q => q
  | .bad => 0

/-- Whether a payload value is numeric. -/
def MVal.isNum : MVal → Bool
  | .num _ => true
  | .bad => false

/-- Round half to even, modelling the rounding used by Python's
fixed-point two-decimal formatting. -/
def roundHalfEven (q : ℚ) : ℤ :=
  if q - ⌊q⌋ < 1/2 then ⌊q⌋
  else if 1/2 < q - ⌊q⌋ then ⌊q⌋ + 1
  else if ⌊q⌋ % 2 = 0 then ⌊q⌋ else ⌊q⌋ + 1

/-- The last two decimal digits of a natural number, with a leading
zero: the fractional part of a two-decimal rendering. -/
def twoDigits (n : ℕ) : String :=
  String.mk [Char.ofNat (48 + n / 10 % 10), Char.ofNat (48 + n % 10)]

/-- Fixed two-decimal rendering of a rational, modelling the Python
format specification `.2f` applied to a float. -/
def fmt2 (q : ℚ) : String :=
  let n := roundHalfEven (q * 100)
  (if n < 0 then "-" else "") ++ toString (n.natAbs / 100) ++ "." ++ twoDigits (n.natAbs % 100)

/-- `fmt_amount` (module-level helper used by the PDF builder): format
`float(val)` with two decimals and the AED suffix; any conversion
failure falls back to the zero rendering. -/
def fmt_amount (v : MVal) : String :=
  match pyFloat v with
  | .ok q => fmt2 q ++ " AED"
  | .error _ => "0.00 AED"

/-- `_fmt_amount` (the textually duplicated helper defined inside
`build_receipt_image`): same body as `fmt_amount`. -/
def _fmt_amount (v : MVal) : String :=
  match pyFloat v with
  | .ok q => fmt2 q ++ " AED"
  | .error _ => "0.00 AED"

/-- Python `str(v)` for a payload value; the exact numeral spelling is
irrelevant to every claim, only that both passes produce the same
string for the same value. -/
def mvalStr : MVal → String
  | .num q => toString q
  | .bad => "None"

/-- The per-item meta line `f"{qty} × {price:.2f} AED"` (braces elided):
interpolating `qty` always succeeds via `str`, but the two-decimal
format specification raises on a non-numeric price. -/
def metaStr (qty price : MVal) : Except Unit String :=
  match price with
  | .num q => .ok (mvalStr qty ++ " × " ++ fmt2 q ++ " AED")
  | .bad => .error ()

/-- One line item of the payload; each field may be absent. -/
structure Item where
  name : String
  quantity : Option MVal
  unitPrice : Option MVal
  total : Option MVal
deriving DecidableEq, Repr

/-- The `items` field of the payload: absent, JSON null, some other
falsy value (0, empty string, false, empty mapping), or an actual
list. -/
inductive ItemsField where
  | absent
  | null
  | falsy
  | list (l : List Item)
deriving DecidableEq, Repr

/-- `payload.get("items", []) or []`: the default for an absent key is
the empty list, and any falsy value (including `None` and the empty
list itself) is replaced by the empty list. -/
def itemsOf : ItemsField → List Item
  | .absent => []
  | .null => []
  | .falsy => []
  | .list l => l

/-- The receipt payload, with one field per key the builders read. -/
structure Payload where
  companyName : Option String
  companyAddress : Option String
  companyPhone : Option String
  receiptNo : Option String
  date : Option String
  paymentMethod : Option String
  items : ItemsField
  total : Option MVal
  paidAmount : Option MVal
  subtotal : Option MVal
  vat : Option MVal
deriving DecidableEq, Repr

/-- A resolved draw operation: a text string placed at an absolute
position with a font size, or a horizontal rule. -/
inductive DrawOp where
  | text (s : String) (x y : ℚ) (size : ℕ)
  | hline (x1 x2 y : ℚ)
deriving DecidableEq, Repr

/-- Translate an operation vertically (comparing pass-2 output against
pass-1 output on a surface of a different height). -/
def DrawOp.shiftY (d : ℚ) : DrawOp → DrawOp
  | .text s x y size => .text s x (y + d) size
  | .hline a b y => .hline a b (y + d)

/-- A text-width metric: width of a string at a font size.  Both passes
of a renderer consult the same metric, as in the source where one font
object serves both canvases. -/
def TW : Type := String → ℕ → ℚ

/-! ## Image renderer (`build_receipt_image`) -/

/-- Image margin in pixels. -/
def imgMargin : ℚ := 16

/-- Image line advance in pixels. -/
def imgLineH : ℚ := 28

/-- `draw_center` on the image: pixel x-coordinate is
`(width_px - w) // 2` with integer division on the measured width. -/
def imgCenter (tw : TW) (W : ℚ) (t : String) (y : ℚ) (size : ℕ) : DrawOp :=
  .text t (↑(⌊(W - tw t size) / 2⌋ : ℤ)) y size

/-- `draw_left` on the image. -/
def imgLeft (t : String) (x y : ℚ) (size : ℕ) : DrawOp :=
  .text t x y size

/-- `draw_right` on the image: x-coordinate is `x_right - w`. -/
def imgRight (tw : TW) (t : String) (xr y : ℚ) (size : ℕ) : DrawOp :=
  .text t (xr - tw t size) y size

/-- The pass-1 item loop of the image builder (draws each item's name,
meta line and formatted line total while accumulating `item_sum`; the
accumulation is guarded by try/except and skips unparseable totals). -/
def imgItemLoop1 (tw : TW) (W : ℚ) : List Item → ℚ → ℚ → Except Unit (List DrawOp × ℚ × ℚ)
  | [], y, s => .ok ([], y, s)
  | it :: rest, y, s =>
    let qty := it.quantity.getD (.num 0)
    let price := it.unitPrice.getD (.num 0)
    match pyMul qty price with
    | .error e => .error e
    | .ok d =>
      let total_line := it.total.getD d
      match metaStr qty price with
      | .error e => .error e
      | .ok meta =>
        let ops := [imgLeft it.name imgMargin y 22,
                    imgLeft meta (imgMargin + 4) (y + (imgLineH - 2)) 22,
                    imgRight tw (_fmt_amount total_line) (W - imgMargin) (y + (imgLineH - 2)) 22]
        let y2 := y + (imgLineH - 2) + (imgLineH + 4)
        let s2 := match pyFloat total_line with
          | .ok q => s + q
          | .error _ => s
        match imgItemLoop1 tw W rest y2 s2 with
        | .error e => .error e
        | .ok (opsR, yR, sR) => .ok (ops ++ opsR, yR, sR)

/-- The pass-2 item loop of the image builder (redraw block): same
drawing sequence, no sum accumulation. -/
def imgItemLoop2 (tw : TW) (W : ℚ) : List Item → ℚ → Except Unit (List DrawOp × ℚ)
  | [], y => .ok ([], y)
  | it :: rest, y =>
    let qty := it.quantity.getD (.num 0)
    let price := it.unitPrice.getD (.num 0)
    match pyMul qty price with
    | .error e => .error e
    | .ok d =>
      let total_line := it.total.getD d
      match metaStr qty price with
      | .error e => .error e
      | .ok meta =>
        let ops := [imgLeft it.name imgMargin y 22,
                    imgLeft meta (imgMargin + 4) (y + (imgLineH - 2)) 22,
                    imgRight tw (_fmt_amount total_line) (W - imgMargin) (y + (imgLineH - 2)) 22]
        let y2 := y + (imgLineH - 2) + (imgLineH + 4)
        match imgItemLoop2 tw W rest y2 with
        | .error e => .error e
        | .ok (opsR, yR) => .ok (ops ++ opsR, yR)

/-- The derived VAT of the image builder when the payload omits `vat`:
`max(float(total) - float(subtotal_val or 0), 0)` inside try/except,
falling back to 0 (the inner `float` after `or 0` cannot fail, so only
a non-numeric total triggers the fallback). -/
def imgVatDerived (totalV subV : MVal) : MVal :=
  match pyFloat totalV with
  | .ok t => .num (max (t - pyOr0 subV) 0)
  | .error _ => .num 0

/-- Pass 1 of the image builder: draw every element on the oversized
scratch canvas from cursor `y = margin`, accumulating the item sum and
deriving subtotal and VAT along the way.  Returns the emitted ops, the
final cursor position, the item sum and the resolved subtotal and VAT
values. -/
def imgPass1 (tw : TW) (W : ℚ) (p : Payload) (date : String) :
    Except Unit (List DrawOp × ℚ × ℚ × MVal × MVal) :=
  let company_name := p.companyName.getD "Company Name"
  let company_address := p.companyAddress.getD ""
  let company_phone := p.companyPhone.getD ""
  let receipt_no := p.receiptNo.getD "-"
  let payment_method := p.paymentMethod.getD "-"
  let items := itemsOf p.items
  let totalV := p.total.getD (.num 0)
  let paidV := p.paidAmount.getD totalV
  let y0 := imgMargin
  let y1 := y0 + imgLineH
  let y2 := y1 + (if company_address ≠ "" then imgLineH else 0)
  let y3 := y2 + (if company_phone ≠ "" then imgLineH else 0)
  let y4 := y3 + 6
  let y5 := y4 + imgLineH
  let hdrOps := [imgCenter tw W company_name y0 28]
      ++ (if company_address ≠ "" then [imgCenter tw W company_address y1 24] else [])
      ++ (if company_phone ≠ "" then [imgCenter tw W ("Phone: " ++ company_phone) y2 24] else [])
      ++ [DrawOp.hline imgMargin (W - imgMargin) y4]
  let y6 := y5 + imgLineH
  let y7 := y6 + imgLineH + 4
  let y8 := y7 + imgLineH
  let y9 := y8 + imgLineH + 4
  let y10 := y9 + imgLineH
  let y11 := y10 + imgLineH + 8
  let y12 := y11 + imgLineH
  let y13 := y12 + imgLineH + 4
  let infoOps := [imgLeft "Receipt No:" imgMargin y5 22,
      imgLeft receipt_no (imgMargin + 10) y6 22,
      imgLeft "Payment Method:" imgMargin y7 22,
      imgLeft payment_method.toUpper (imgMargin + 10) y8 22,
      imgLeft "Date:" imgMargin y9 22,
      imgLeft date (imgMargin + 10) y10 22,
      DrawOp.hline imgMargin (W - imgMargin) y11,
      imgCenter tw W "ITEMS" y12 24]
  match imgItemLoop1 tw W items y13 0 with
  | .error e => .error e
  | .ok (itemOps, yL, item_sum) =>
    let y14 := yL + 2
    let y15 := y14 + imgLineH
    let countOps := [DrawOp.hline imgMargin (W - imgMargin) y14,
        imgLeft "Items count:" imgMargin y15 22,
        imgRight tw (toString items.length) (W - imgMargin) y15 22]
    let subV : MVal := match p.subtotal with
      | some v => v
      | none => .num item_sum
    let vatV : MVal := match p.vat with
      | some v => v
      | none => imgVatDerived totalV subV
    let y16 := y15 + imgLineH
    let y17 := y16 + imgLineH
    let y18 := y17 + imgLineH
    let y19 := y18 + imgLineH
    let y20 := y19 + imgLineH + 10
    let totOps := [imgLeft "Subtotal:" imgMargin y16 22,
        imgRight tw (_fmt_amount subV) (W - imgMargin) y16 22,
        imgLeft "VAT:" imgMargin y17 22,
        imgRight tw (_fmt_amount vatV) (W - imgMargin) y17 22,
        imgLeft "TOTAL:" imgMargin y18 22,
        imgRight tw (_fmt_amount totalV) (W - imgMargin) y18 22,
        imgLeft "Paid amount:" imgMargin y19 22,
        imgRight tw (_fmt_amount paidV) (W - imgMargin) y19 22,
        imgCenter tw W "Thank you for your purchase!" y20 22]
    .ok (hdrOps ++ infoOps ++ itemOps ++ countOps ++ totOps, y20, item_sum, subV, vatV)

/-- Pass 2 of the image builder (the redraw block on the final canvas):
identical drawing sequence restarted at `y = margin`, reusing the
subtotal and VAT values resolved during pass 1. -/
def imgPass2 (tw : TW) (W : ℚ) (p : Payload) (date : String) (subV vatV : MVal) :
    Except Unit (List DrawOp × ℚ) :=
  let company_name := p.companyName.getD "Company Name"
  let company_address := p.companyAddress.getD ""
  let company_phone := p.companyPhone.getD ""
  let receipt_no := p.receiptNo.getD "-"
  let payment_method := p.paymentMethod.getD "-"
  let items := itemsOf p.items
  let totalV := p.total.getD (.num 0)
  let paidV := p.paidAmount.getD totalV
  let y0 := imgMargin
  let y1 := y0 + imgLineH
  let y2 := y1 + (if company_address ≠ "" then imgLineH else 0)
  let y3 := y2 + (if company_phone ≠ "" then imgLineH else 0)
  let y4 := y3 + 6
  let y5 := y4 + imgLineH
  let hdrOps := [imgCenter tw W company_name y0 28]
      ++ (if company_address ≠ "" then [imgCenter tw W company_address y1 24] else [])
      ++ (if company_phone ≠ "" then [imgCenter tw W ("Phone: " ++ company_phone) y2 24] else [])
      ++ [DrawOp.hline imgMargin (W - imgMargin) y4]
  let y6 := y5 + imgLineH
  let y7 := y6 + imgLineH + 4
  let y8 := y7 + imgLineH
  let y9 := y8 + imgLineH + 4
  let y10 := y9 + imgLineH
  let y11 := y10 + imgLineH + 8
  let y12 := y11 + imgLineH
  let y13 := y12 + imgLineH + 4
  let infoOps := [imgLeft "Receipt No:" imgMargin y5 22,
      imgLeft receipt_no (imgMargin + 10) y6 22,
      imgLeft "Payment Method:" imgMargin y7 22,
      imgLeft payment_method.toUpper (imgMargin + 10) y8 22,
      imgLeft "Date:" imgMargin y9 22,
      imgLeft date (imgMargin + 10) y10 22,
      DrawOp.hline imgMargin (W - imgMargin) y11,
      imgCenter tw W "ITEMS" y12 24]
  match imgItemLoop2 tw W items y13 with
  | .error e => .error e
  | .ok (itemOps, yL) =>
    let y14 := yL + 2
    let y15 := y14 + imgLineH
    let countOps := [DrawOp.hline imgMargin (W - imgMargin) y14,
        imgLeft "Items count:" imgMargin y15 22,
        imgRight tw (toString items.length) (W - imgMargin) y15 22]
    let y16 := y15 + imgLineH
    let y17 := y16 + imgLineH
    let y18 := y17 + imgLineH
    let y19 := y18 + imgLineH
    let y20 := y19 + imgLineH + 10
    let totOps := [imgLeft "Subtotal:" imgMargin y16 22,
        imgRight tw (_fmt_amount subV) (W - imgMargin) y16 22,
        imgLeft "VAT:" imgMargin y17 22,
        imgRight tw (_fmt_amount vatV) (W - imgMargin) y17 22,
        imgLeft "TOTAL:" imgMargin y18 22,
        imgRight tw (_fmt_amount totalV) (W - imgMargin) y18 22,
        imgLeft "Paid amount:" imgMargin y19 22,
        imgRight tw (_fmt_amount paidV) (W - imgMargin) y19 22,
        imgCenter tw W "Thank you for your purchase!" y20 22]
    .ok (hdrOps ++ infoOps ++ itemOps ++ countOps ++ totOps, y20)

/-- Result of the two-pass image build: the op sequences of both
passes, the pass-1 final cursor, the resolved surface height and the
reconciled monetary figures. -/
structure ImgResult where
  ops1 : List DrawOp
  ops2 : List DrawOp
  yEnd : ℚ
  height : ℚ
  itemSum : ℚ
  subtotalV : MVal
  vatV : MVal
deriving DecidableEq, Repr

/-- `build_receipt_image`: extract the date (defaulting to the current
date string `now`), run the measuring pass on the oversized canvas,
resolve `final_height = max(y + margin + 10, 800)`, and rerun the
identical drawing sequence on the final canvas. -/
def build_receipt_image (tw : TW) (W : ℚ) (p : Payload) (now : String) :
    Except Unit ImgResult :=
  let date := p.date.getD now
  match imgPass1 tw W p date with
  | .error e => .error e
  | .ok (ops1, yEnd, item_sum, subV, vatV) =>
    let final_height := max (yEnd + imgMargin + 10) 800
    match imgPass2 tw W p date subV vatV with
    | .error e => .error e
    | .ok (ops2, _) => .ok ⟨ops1, ops2, yEnd, final_height, item_sum, subV, vatV⟩

/-! ## PDF renderer (`build_receipt_pdf`) -/

/-- One millimetre in points: 72 / 25.4, exactly 360/127. -/
def mmQ : ℚ := 360 / 127

/-- Page width: 80 mm in points. -/
def width_pt : ℚ := 80 * mmQ

/-- PDF margin in points. -/
def pdfMargin : ℚ := 8

/-- PDF line advance in points. -/
def pdfLineH : ℚ := 14

/-- Oversized scratch page height: 1000 mm in points. -/
def pdfTempH : ℚ := 1000 * mmQ

/-- `draw_center` on a PDF canvas: x is `(width_pt - w) / 2` with exact
division. -/
def pdfCenter (tw : TW) (t : String) (y : ℚ) (size : ℕ) : DrawOp :=
  .text t ((width_pt - tw t size) / 2) y size

/-- `draw_left` on a PDF canvas. -/
def pdfLeft (t : String) (x y : ℚ) (size : ℕ) : DrawOp :=
  .text t x y size

/-- `draw_right` on a PDF canvas: x is `x_right - w`. -/
def pdfRight (tw : TW) (t : String) (xr y : ℚ) (size : ℕ) : DrawOp :=
  .text t (xr - tw t size) y size

/-- The pass-1 item drawing loop of the PDF builder. -/
def pdfItemLoop1 (tw : TW) : List Item → ℚ → Except Unit (List DrawOp × ℚ)
  | [], y => .ok ([], y)
  | it :: rest, y =>
    let qty := it.quantity.getD (.num 0)
    let price := it.unitPrice.getD (.num 0)
    match pyMul qty price with
    | .error e => .error e
    | .ok d =>
      let total_line := it.total.getD d
      match metaStr qty price with
      | .error e => .error e
      | .ok meta =>
        let ops := [pdfLeft it.name pdfMargin y 10,
                    pdfLeft meta (pdfMargin + 4) (y - (pdfLineH - 2)) 10,
                    pdfRight tw (fmt_amount total_line) (width_pt - pdfMargin) (y - (pdfLineH - 2)) 10]
        let y2 := y - (pdfLineH - 2) - (pdfLineH + 4)
        match pdfItemLoop1 tw rest y2 with
        | .error e => .error e
        | .ok (opsR, yR) => .ok (ops ++ opsR, yR)

/-- The pass-2 item drawing loop of the PDF builder (redraw block). -/
def pdfItemLoop2 (tw : TW) : List Item → ℚ → Except Unit (List DrawOp × ℚ)
  | [], y => .ok ([], y)
  | it :: rest, y =>
    let qty := it.quantity.getD (.num 0)
    let price := it.unitPrice.getD (.num 0)
    match pyMul qty price with
    | .error e => .error e
    | .ok d =>
      let total_line := it.total.getD d
      match metaStr qty price with
      | .error e => .error e
      | .ok meta =>
        let ops := [pdfLeft it.name pdfMargin y 10,
                    pdfLeft meta (pdfMargin + 4) (y - (pdfLineH - 2)) 10,
                    pdfRight tw (fmt_amount total_line) (width_pt - pdfMargin) (y - (pdfLineH - 2)) 10]
        let y2 := y - (pdfLineH - 2) - (pdfLineH + 4)
        match pdfItemLoop2 tw rest y2 with
        | .error e => .error e
        | .ok (opsR, yR) => .ok (ops ++ opsR, yR)

/-- The standalone item-sum loop of the PDF builder:
`item_sum += item.get("total", qty * price)` with no try/except, so a
non-numeric addend raises. -/
def pdfItemSum : List Item → ℚ → Except Unit ℚ
  | [], s => .ok s
  | it :: rest, s =>
    let qty := it.quantity.getD (.num 0)
    let price := it.unitPrice.getD (.num 0)
    match pyMul qty price with
    | .error e => .error e
    | .ok d =>
      match pyAdd s (it.total.getD d) with
      | .error e => .error e
      | .ok s2 => pdfItemSum rest s2

/-- The derived VAT of the PDF builder when the payload omits `vat`:
`max(total - float(subtotal_val or 0), 0)` with no try/except, so a
non-numeric total raises. -/
def pdfVatDerived (totalV subV : MVal) : Except Unit MVal :=
  match totalV with
  | .num t => .ok (.num (max (t - pyOr0 subV) 0))
  | .bad => .error ()

/-- Pass 1 of the PDF builder: draw on the oversized scratch page from
cursor `y = temp_height - margin - 10` downward.  Note: the source
draws the Subtotal row at the same cursor position as the Items-count
row (there is no line advance between them in this pass). -/
def pdfPass1 (tw : TW) (p : Payload) (date : String) :
    Except Unit (List DrawOp × ℚ × ℚ × MVal × MVal) :=
  let company_name := p.companyName.getD "Company Name"
  let company_address := p.companyAddress.getD ""
  let company_phone := p.companyPhone.getD ""
  let receipt_no := p.receiptNo.getD "-"
  let payment_method := p.paymentMethod.getD "-"
  let items := itemsOf p.items
  let totalV := p.total.getD (.num 0)
  let paidV := p.paidAmount.getD totalV
  let y0 := pdfTempH - pdfMargin - 10
  let y1 := y0 - pdfLineH
  let y2 := y1 - (if company_address ≠ "" then pdfLineH else 0)
  let y3 := y2 - (if company_phone ≠ "" then pdfLineH else 0)
  let y4 := y3 - 4
  let y5 := y4 - pdfLineH
  let hdrOps := [pdfCenter tw company_name y0 12]
      ++ (if company_address ≠ "" then [pdfCenter tw company_address y1 11] else [])
      ++ (if company_phone ≠ "" then [pdfCenter tw ("Phone: " ++ company_phone) y2 11] else [])
      ++ [DrawOp.hline pdfMargin (width_pt - pdfMargin) y4]
  let y6 := y5 - pdfLineH
  let y7 := y6 - (pdfLineH + 4)
  let y8 := y7 - pdfLineH
  let y9 := y8 - (pdfLineH + 4)
  let y10 := y9 - pdfLineH
  let y11 := y10 - (pdfLineH + 8)
  let y12 := y11 - pdfLineH
  let y13 := y12 - (pdfLineH + 4)
  let infoOps := [pdfLeft "Receipt No:" pdfMargin y5 10,
      pdfLeft receipt_no (pdfMargin + 10) y6 10,
      pdfLeft "Payment Method:" pdfMargin y7 10,
      pdfLeft payment_method.toUpper (pdfMargin + 10) y8 10,
      pdfLeft "Date:" pdfMargin y9 10,
      pdfLeft date (pdfMargin + 10) y10 10,
      DrawOp.hline pdfMargin (width_pt - pdfMargin) y11,
      pdfCenter tw "ITEMS" y12 11]
  match pdfItemLoop1 tw items y13 with
  | .error e => .error e
  | .ok (itemOps, yL) =>
    let y14 := yL - 2
    let y15 := y14 - pdfLineH
    let countOps := [DrawOp.hline pdfMargin (width_pt - pdfMargin) y14,
        pdfLeft "Items count:" pdfMargin y15 10,
        pdfRight tw (toString items.length) (width_pt - pdfMargin) y15 10]
    match pdfItemSum items 0 with
    | .error e => .error e
    | .ok item_sum =>
      let subV : MVal := match p.subtotal with
        | some v => v
        | none => .num item_sum
      let vatE : Except Unit MVal := match p.vat with
        | some v => .ok v
        | none => pdfVatDerived totalV subV
      match vatE with
      | .error e => .error e
      | .ok vatV =>
        let y16 := y15 - pdfLineH
        let y17 := y16 - pdfLineH
        let y18 := y17 - pdfLineH
        let y19 := y18 - (pdfLineH + 10)
        let totOps := [pdfLeft "Subtotal:" pdfMargin y15 10,
            pdfRight tw (fmt_amount subV) (width_pt - pdfMargin) y15 10,
            pdfLeft "VAT:" pdfMargin y16 10,
            pdfRight tw (fmt_amount vatV) (width_pt - pdfMargin) y16 10,
            pdfLeft "TOTAL:" pdfMargin y17 10,
            pdfRight tw (fmt_amount totalV) (width_pt - pdfMargin) y17 10,
            pdfLeft "Paid amount:" pdfMargin y18 10,
            pdfRight tw (fmt_amount paidV) (width_pt - pdfMargin) y18 10,
            pdfCenter tw "Thank you for your purchase!" y19 10]
        .ok (hdrOps ++ infoOps ++ itemOps ++ countOps ++ totOps, y19, item_sum, subV, vatV)

/-- Pass 2 of the PDF builder (the redraw block on the exact-height
page), starting at `y = final_height - margin - 10`.  Unlike pass 1,
this block does advance the cursor one line between the Items-count
row and the Subtotal row. -/
def pdfPass2 (tw : TW) (p : Payload) (date : String) (subV vatV : MVal) (H : ℚ) :
    Except Unit (List DrawOp × ℚ) :=
  let company_name := p.companyName.getD "Company Name"
  let company_address := p.companyAddress.getD ""
  let company_phone := p.companyPhone.getD ""
  let receipt_no := p.receiptNo.getD "-"
  let payment_method := p.paymentMethod.getD "-"
  let items := itemsOf p.items
  let totalV := p.total.getD (.num 0)
  let paidV := p.paidAmount.getD totalV
  let y0 := H - pdfMargin - 10
  let y1 := y0 - pdfLineH
  let y2 := y1 - (if company_address ≠ "" then pdfLineH else 0)
  let y3 := y2 - (if company_phone ≠ "" then pdfLineH else 0)
  let y4 := y3 - 4
  let y5 := y4 - pdfLineH
  let hdrOps := [pdfCenter tw company_name y0 12]
      ++ (if company_address ≠ "" then [pdfCenter tw company_address y1 11] else [])
      ++ (if company_phone ≠ "" then [pdfCenter tw ("Phone: " ++ company_phone) y2 11] else [])
      ++ [DrawOp.hline pdfMargin (width_pt - pdfMargin) y4]
  let y6 := y5 - pdfLineH
  let y7 := y6 - (pdfLineH + 4)
  let y8 := y7 - pdfLineH
  let y9 := y8 - (pdfLineH + 4)
  let y10 := y9 - pdfLineH
  let y11 := y10 - (pdfLineH + 8)
  let y12 := y11 - pdfLineH
  let y13 := y12 - (pdfLineH + 4)
  let infoOps := [pdfLeft "Receipt No:" pdfMargin y5 10,
      pdfLeft receipt_no (pdfMargin + 10) y6 10,
      pdfLeft "Payment Method:" pdfMargin y7 10,
      pdfLeft payment_method.toUpper (pdfMargin + 10) y8 10,
      pdfLeft "Date:" pdfMargin y9 10,
      pdfLeft date (pdfMargin + 10) y10 10,
      DrawOp.hline pdfMargin (width_pt - pdfMargin) y11,
      pdfCenter tw "ITEMS" y12 11]
  match pdfItemLoop2 tw items y13 with
  | .error e => .error e
  | .ok (itemOps, yL) =>
    let y14 := yL - 2
    let y15 := y14 - pdfLineH
    let countOps := [DrawOp.hline pdfMargin (width_pt - pdfMargin) y14,
        pdfLeft "Items count:" pdfMargin y15 10,
        pdfRight tw (toString items.length) (width_pt - pdfMargin) y15 10]
    let y16 := y15 - pdfLineH
    let y17 := y16 - pdfLineH
    let y18 := y17 - pdfLineH
    let y19 := y18 - pdfLineH
    let y20 := y19 - (pdfLineH + 10)
    let totOps := [pdfLeft "Subtotal:" pdfMargin y16 10,
        pdfRight tw (fmt_amount subV) (width_pt - pdfMargin) y16 10,
        pdfLeft "VAT:" pdfMargin y17 10,
        pdfRight tw (fmt_amount vatV) (width_pt - pdfMargin) y17 10,
        pdfLeft "TOTAL:" pdfMargin y18 10,
        pdfRight tw (fmt_amount totalV) (width_pt - pdfMargin) y18 10,
        pdfLeft "Paid amount:" pdfMargin y19 10,
        pdfRight tw (fmt_amount paidV) (width_pt - pdfMargin) y19 10,
        pdfCenter tw "Thank you for your purchase!" y20 10]
    .ok (hdrOps ++ infoOps ++ itemOps ++ countOps ++ totOps, y20)

/-- Result of the two-pass PDF build. -/
structure PdfResult where
  ops1 : List DrawOp
  ops2 : List DrawOp
  yEnd : ℚ
  height : ℚ
  itemSum : ℚ
  subtotalV : MVal
  vatV : MVal
deriving DecidableEq, Repr

/-- `build_receipt_pdf`: measure on the 1000 mm scratch page, resolve
`used_height = temp_height - (y - margin)` and
`final_height = max(used_height, 100 * mm)`, then redraw on the page of
exactly that height. -/
def build_receipt_pdf (tw : TW) (p : Payload) (now : String) :
    Except Unit PdfResult :=
  let date := p.date.getD now
  match pdfPass1 tw p date with
  | .error e => .error e
  | .ok (ops1, yEnd, item_sum, subV, vatV) =>
    let used_height := pdfTempH - (yEnd - pdfMargin)
    let final_height := max used_height (100 * mmQ)
    match pdfPass2 tw p date subV vatV final_height with
    | .error e => .error e
    | .ok (ops2, _) => .ok ⟨ops1, ops2, yEnd, final_height, item_sum, subV, vatV⟩

/-! ## Projections of the build results -/

/-- Pass-1 ops of a successful image build. -/
def imgOps1Of (tw : TW) (W : ℚ) (p : Payload) (now : String) : Option (List DrawOp) :=
  (build_receipt_image tw W p now).toOption.map (·.ops1)

/-- Pass-2 ops of a successful image build. -/
def imgOps2Of (tw : TW) (W : ℚ) (p : Payload) (now : String) : Option (List DrawOp) :=
  (build_receipt_image tw W p now).toOption.map (·.ops2)

/-- Pass-1 final cursor position of a successful image build. -/
def imgYEndOf (tw : TW) (W : ℚ) (p : Payload) (now : String) : Option ℚ :=
  (build_receipt_image tw W p now).toOption.map (·.yEnd)

/-- Final surface height of a successful image build. -/
def imgHeightOf (tw : TW) (W : ℚ) (p : Payload) (now : String) : Option ℚ :=
  (build_receipt_image tw W p now).toOption.map (·.height)

/-- Item sum of a successful image build. -/
def imgItemSumOf (tw : TW) (W : ℚ) (p : Payload) (now : String) : Option ℚ :=
  (build_receipt_image tw W p now).toOption.map (·.itemSum)

/-- Resolved subtotal of a successful image build. -/
def imgSubtotalOf (tw : TW) (W : ℚ) (p : Payload) (now : String) : Option MVal :=
  (build_receipt_image tw W p now).toOption.map (·.subtotalV)

/-- Resolved VAT of a successful image build. -/
def imgVatOf (tw : TW) (W : ℚ) (p : Payload) (now : String) : Option MVal :=
  (build_receipt_image tw W p now).toOption.map (·.vatV)

/-- Pass-1 ops of a successful PDF build. -/
def pdfOps1Of (tw : TW) (p : Payload) (now : String) : Option (List DrawOp) :=
  (build_receipt_pdf tw p now).toOption.map (·.ops1)

/-- Pass-2 ops of a successful PDF build. -/
def pdfOps2Of (tw : TW) (p : Payload) (now : String) : Option (List DrawOp) :=
  (build_receipt_pdf tw p now).toOption.map (·.ops2)

/-- Pass-1 final cursor position of a successful PDF build. -/
def pdfYEndOf (tw : TW) (p : Payload) (now : String) : Option ℚ :=
  (build_receipt_pdf tw p now).toOption.map (·.yEnd)

/-- Final page height of a successful PDF build. -/
def pdfHeightOf (tw : TW) (p : Payload) (now : String) : Option ℚ :=
  (build_receipt_pdf tw p now).toOption.map (·.height)

/-- Item sum of a successful PDF build. -/
def pdfItemSumOf (tw : TW) (p : Payload) (now : String) : Option ℚ :=
  (build_receipt_pdf tw p now).toOption.map (·.itemSum)

/-- Resolved subtotal of a successful PDF build. -/
def pdfSubtotalOf (tw : TW) (p : Payload) (now : String) : Option MVal :=
  (build_receipt_pdf tw p now).toOption.map (·.subtotalV)

/-- Resolved VAT of a successful PDF build. -/
def pdfVatOf (tw : TW) (p : Payload) (now : String) : Option MVal :=
  (build_receipt_pdf tw p now).toOption.map (·.vatV)

/-! ## Specification-side definitions and test fixtures -/

/-- Modelled from the spec: the per-item contribution, the item's total
when present, otherwise quantity times unit price (numeric fields
assumed; the zero fallbacks are unreachable for numeric items). -/
def specItemTotal (it : Item) : ℚ :=
  match it.total with
  | some (.num t) => t
  | some .bad => 0
  | none =>
    match it.quantity.getD (.num 0), it.unitPrice.getD (.num 0) with
    | .num a, .num b => a * b
    | _, _ => 0

/-- Modelled from the spec: the item sum, the sum over all items of the
per-item contribution. -/
def specItemSum (l : List Item) : ℚ :=
  (l.map specItemTotal).sum

/-- All monetary fields of one item are numeric (or absent, which
defaults to 0). -/
def Item.numericB (it : Item) : Bool :=
  (it.quantity.getD (.num 0)).isNum && (it.unitPrice.getD (.num 0)).isNum
    && (it.total.getD (.num 0)).isNum

/-- All monetary fields of every item are numeric. -/
def itemsNumeric (l : List Item) : Bool :=
  l.all Item.numericB

/-- Every item's quantity and unit price are numeric (its total may
still be unparseable). -/
def qpNumeric (l : List Item) : Bool :=
  l.all fun it => (it.quantity.getD (.num 0)).isNum && (it.unitPrice.getD (.num 0)).isNum

/-- A monetary payload field is absent or numeric. -/
def optNum : Option MVal → Bool
  | none => true
  | some (.num _) => true
  | some .bad => false

/-- The base height of the image render: the final height for an
empty items list, as a function of which optional header lines are
present (the floor aside). -/
def imgBase (p : Payload) : ℚ :=
  528 + (if p.companyAddress.getD "" ≠ "" then 28 else 0)
      + (if p.companyPhone.getD "" ≠ "" then 28 else 0)

/-- The base height of the PDF render: the measured height for an
empty items list, as a function of which optional header lines are
present (the floor aside). -/
def pdfBase (p : Payload) : ℚ :=
  272 + (if p.companyAddress.getD "" ≠ "" then 14 else 0)
      + (if p.companyPhone.getD "" ≠ "" then 14 else 0)

/-- Replace the items of a payload, keeping every other field. -/
def withItems (p : Payload) (l : List Item) : Payload :=
  ⟨p.companyName, p.companyAddress, p.companyPhone, p.receiptNo, p.date,
   p.paymentMethod, .list l, p.total, p.paidAmount, p.subtotal, p.vat⟩

/-- A concrete text-width metric for witnesses: every string has width
zero. -/
def tw0 : TW := fun _ _ => 0

/-- The empty payload: every key absent. -/
def pEmpty : Payload :=
  ⟨none, none, none, none, none, none, .absent, none, none, none, none⟩

/-! ## Lemmas about the item loops -/

/-- A successful pass-1 image item loop also runs as the pass-2 loop,
emitting the same ops and ending at the same cursor. -/
theorem imgItemLoop2_of_loop1 (tw : TW) (W : ℚ) :
    ∀ (l : List Item) (y s : ℚ) (o : List DrawOp) (y2 s2 : ℚ),
      imgItemLoop1 tw W l y s = .ok (o, y2, s2) →
      imgItemLoop2 tw W l y = .ok (o, y2)
  | [], y, s, o, y2, s2 => by
    intro h
    simp only [imgItemLoop1, Except.ok.injEq, Prod.mk.injEq] at h
    simp [imgItemLoop2, h.1, h.2.1]
  | it :: rest, y, s, o, y2, s2 => by
    intro h
    simp only [imgItemLoop1] at h
    simp only [imgItemLoop2]
    split at h
    next => simp at h
    next d hd =>
      split at h
      next => simp at h
      next meta hm =>
        split at h
        next => simp at h
        next opsR yR sR hrec =>
          simp only [Except.ok.injEq, Prod.mk.injEq] at h
          have ih := imgItemLoop2_of_loop1 tw W rest _ _ _ _ _ hrec
          rw [ih]
          simp [h.1, h.2.1]

/-- The pass-1 image item loop advances the cursor by exactly 58 pixels
per item, independent of the item contents. -/
theorem imgItemLoop1_y (tw : TW) (W : ℚ) :
    ∀ (l : List Item) (y s : ℚ) (o : List DrawOp) (y2 s2 : ℚ),
      imgItemLoop1 tw W l y s = .ok (o, y2, s2) → y2 = y + 58 * l.length
  | [], y, s, o, y2, s2 => by
    intro h
    simp only [imgItemLoop1, Except.ok.injEq, Prod.mk.injEq] at h
    simp [← h.2.1]
  | it :: rest, y, s, o, y2, s2 => by
    intro h
    simp only [imgItemLoop1] at h
    split at h
    next => simp at h
    next d hd =>
      split at h
      next => simp at h
      next meta hm =>
        split at h
        next => simp at h
        next opsR yR sR hrec =>
          simp only [Except.ok.injEq, Prod.mk.injEq] at h
          have ih := imgItemLoop1_y tw W rest _ _ _ _ _ hrec
          rw [← h.2.1, ih, imgLineH]
          simp only [List.length_cons]
          push_cast
          ring

/-- For numeric items, the pass-1 image item loop accumulates exactly
the specification's item sum. -/
theorem imgItemLoop1_sum (tw : TW) (W : ℚ) :
    ∀ (l : List Item) (y s : ℚ) (o : List DrawOp) (y2 s2 : ℚ),
      itemsNumeric l = true →
      imgItemLoop1 tw W l y s = .ok (o, y2, s2) → s2 = s + specItemSum l
  | [], y, s, o, y2, s2 => by
    intro _ h
    simp only [imgItemLoop1, Except.ok.injEq, Prod.mk.injEq] at h
    simp [← h.2.2, specItemSum]
  | it :: rest, y, s, o, y2, s2 => by
    intro hnum h
    simp only [itemsNumeric, List.all_cons, Bool.and_eq_true] at hnum
    obtain ⟨hit, hrest⟩ := hnum
    simp only [Item.numericB, Bool.and_eq_true] at hit
    cases hq : it.quantity.getD (.num 0) with
    | bad => rw [hq] at hit; simp [MVal.isNum] at hit
    | num a =>
    cases hp : it.unitPrice.getD (.num 0) with
    | bad => rw [hp] at hit; simp [MVal.isNum] at hit
    | num b =>
    simp only [imgItemLoop1, hq, hp] at h
    rw [hq, hp] at hit
    split at h
    next => simp at h
    next d hd =>
      split at h
      next => simp at h
      next meta hm =>
        split at h
        next => simp at h
        next opsR yR sR hrec =>
          simp only [Except.ok.injEq, Prod.mk.injEq] at h
          simp only [pyMul, Except.ok.injEq] at hd
          cases ht : it.total with
          | none =>
            rw [ht] at hrec
            simp only [Option.getD_none, ← hd, pyFloat] at hrec
            have ih := imgItemLoop1_sum tw W rest _ _ _ _ _ hrest hrec
            rw [← h.2.2, ih]
            simp [specItemSum, specItemTotal, ht, hq, hp]
            ring
          | some v =>
            cases v with
            | bad => rw [ht] at hit; simp [Option.getD, MVal.isNum] at hit
            | num t =>
              rw [ht] at hrec
              simp only [Option.getD_some, pyFloat] at hrec
              have ih := imgItemLoop1_sum tw W rest _ _ _ _ _ hrest hrec
              rw [← h.2.2, ih]
              simp [specItemSum, specItemTotal, ht]
              ring

/-- The pass-1 image item loop succeeds whenever every item's quantity
and unit price are numeric (a non-numeric per-item total is skipped,
not fatal). -/
theorem imgItemLoop1_total (tw : TW) (W : ℚ) :
    ∀ (l : List Item) (y s : ℚ), qpNumeric l = true →
      ∃ o y2 s2, imgItemLoop1 tw W l y s = .ok (o, y2, s2)
  | [], y, s => by
    intro _
    exact ⟨[], y, s, rfl⟩
  | it :: rest, y, s => by
    intro hnum
    simp only [qpNumeric, List.all_cons, Bool.and_eq_true] at hnum
    obtain ⟨⟨hq1, hp1⟩, hrest⟩ := hnum
    cases hq : it.quantity.getD (.num 0) with
    | bad => rw [hq] at hq1; simp [MVal.isNum] at hq1
    | num a =>
    cases hp : it.unitPrice.getD (.num 0) with
    | bad => rw [hp] at hp1; simp [MVal.isNum] at hp1
    | num b =>
    have hrec := imgItemLoop1_total tw W rest
      (y + (imgLineH - 2) + (imgLineH + 4))
      (match pyFloat (it.total.getD (.num (a * b))) with
        | .ok q => s + q
        | .error _ => s)
      (by simpa [qpNumeric] using hrest)
    obtain ⟨oR, yR, sR, hR⟩ := hrec
    refine ⟨[imgLeft it.name imgMargin y 22,
        imgLeft (mvalStr (MVal.num a) ++ " × " ++ fmt2 b ++ " AED") (imgMargin + 4)
          (y + (imgLineH - 2)) 22,
        imgRight tw (_fmt_amount (it.total.getD (.num (a * b)))) (W - imgMargin)
          (y + (imgLineH - 2)) 22] ++ oR, yR, sR, ?_⟩
    simp only [imgItemLoop1, hq, hp, pyMul, metaStr, hR]

/-- The pass-1 PDF item loop moves the cursor down by exactly 30 points
per item, independent of the item contents. -/
theorem pdfItemLoop1_y (tw : TW) :
    ∀ (l : List Item) (y : ℚ) (o : List DrawOp) (y2 : ℚ),
      pdfItemLoop1 tw l y = .ok (o, y2) → y2 = y - 30 * l.length
  | [], y, o, y2 => by
    intro h
    simp only [pdfItemLoop1, Except.ok.injEq, Prod.mk.injEq] at h
    simp [← h.2]
  | it :: rest, y, o, y2 => by
    intro h
    simp only [pdfItemLoop1] at h
    split at h
    next => simp at h
    next d hd =>
      split at h
      next => simp at h
      next meta hm =>
        split at h
        next => simp at h
        next opsR yR hrec =>
          simp only [Except.ok.injEq, Prod.mk.injEq] at h
          have ih := pdfItemLoop1_y tw rest _ _ _ hrec
          rw [← h.2, ih, pdfLineH]
          simp only [List.length_cons]
          push_cast
          ring

/-- A successful pass-1 PDF item loop also runs as the pass-2 loop,
emitting the same ops and ending at the same cursor. -/
theorem pdfItemLoop2_of_loop1 (tw : TW) :
    ∀ (l : List Item) (y : ℚ) (o : List DrawOp) (y2 : ℚ),
      pdfItemLoop1 tw l y = .ok (o, y2) → pdfItemLoop2 tw l y = .ok (o, y2)
  | [], y, o, y2 => by
    intro h
    simp only [pdfItemLoop1, Except.ok.injEq, Prod.mk.injEq] at h
    simp [pdfItemLoop2, h.1, h.2]
  | it :: rest, y, o, y2 => by
    intro h
    simp only [pdfItemLoop1] at h
    simp only [pdfItemLoop2]
    split at h
    next => simp at h
    next d hd =>
      split at h
      next => simp at h
      next meta hm =>
        split at h
        next => simp at h
        next opsR yR hrec =>
          simp only [Except.ok.injEq, Prod.mk.injEq] at h
          have ih := pdfItemLoop2_of_loop1 tw rest _ _ _ hrec
          rw [ih]
          simp [h.1, h.2]

/-- The pass-1 PDF item loop succeeds whenever every item's quantity
and unit price are numeric. -/
theorem pdfItemLoop1_total (tw : TW) :
    ∀ (l : List Item) (y : ℚ), qpNumeric l = true →
      ∃ o y2, pdfItemLoop1 tw l y = .ok (o, y2)
  | [], y => by
    intro _
    exact ⟨[], y, rfl⟩
  | it :: rest, y => by
    intro hnum
    simp only [qpNumeric, List.all_cons, Bool.and_eq_true] at hnum
    obtain ⟨⟨hq1, hp1⟩, hrest⟩ := hnum
    cases hq : it.quantity.getD (.num 0) with
    | bad => rw [hq] at hq1; simp [MVal.isNum] at hq1
    | num a =>
    cases hp : it.unitPrice.getD (.num 0) with
    | bad => rw [hp] at hp1; simp [MVal.isNum] at hp1
    | num b =>
    have hrec := pdfItemLoop1_total tw rest (y - (pdfLineH - 2) - (pdfLineH + 4))
      (by simpa [qpNumeric] using hrest)
    obtain ⟨oR, yR, hR⟩ := hrec
    refine ⟨[pdfLeft it.name pdfMargin y 10,
        pdfLeft (mvalStr (MVal.num a) ++ " × " ++ fmt2 b ++ " AED") (pdfMargin + 4)
          (y - (pdfLineH - 2)) 10,
        pdfRight tw (fmt_amount (it.total.getD (.num (a * b)))) (width_pt - pdfMargin)
          (y - (pdfLineH - 2)) 10] ++ oR, yR, ?_⟩
    simp only [pdfItemLoop1, hq, hp, pyMul, metaStr, hR]

/-- For numeric items, the unguarded PDF item-sum loop succeeds and
returns exactly the specification's item sum. -/
theorem pdfItemSum_numeric :
    ∀ (l : List Item) (s : ℚ), itemsNumeric l = true →
      pdfItemSum l s = .ok (s + specItemSum l)
  | [], s => by
    intro _
    simp [pdfItemSum, specItemSum]
  | it :: rest, s => by
    intro hnum
    simp only [itemsNumeric, List.all_cons, Bool.and_eq_true] at hnum
    obtain ⟨hit, hrest⟩ := hnum
    simp only [Item.numericB, Bool.and_eq_true] at hit
    cases hq : it.quantity.getD (.num 0) with
    | bad => rw [hq] at hit; simp [MVal.isNum] at hit
    | num a =>
    cases hp : it.unitPrice.getD (.num 0) with
    | bad => rw [hp] at hit; simp [MVal.isNum] at hit
    | num b =>
    rw [hq, hp] at hit
    cases ht : it.total with
    | none =>
      have ih := pdfItemSum_numeric rest (s + a * b) (by simpa [itemsNumeric] using hrest)
      simp only [pdfItemSum, hq, hp, pyMul, ht, Option.getD_none, pyAdd, ih]
      congr 1
      simp [specItemSum, specItemTotal, ht, hq, hp]
      ring
    | some v =>
      cases v with
      | bad => rw [ht] at hit; simp [Option.getD, MVal.isNum] at hit
      | num t =>
        have ih := pdfItemSum_numeric rest (s + t) (by simpa [itemsNumeric] using hrest)
        simp only [pdfItemSum, hq, hp, pyMul, ht, Option.getD_some, pyAdd, ih]
        congr 1
        simp [specItemSum, specItemTotal, ht]
        ring

/-! ## Lemmas about the rendering passes -/

/-- A successful image pass 1 determines pass 2 completely: the redraw
block emits exactly the same op sequence from the same starting cursor
and ends at the same cursor position. -/
theorem imgPass2_of_pass1 {tw : TW} {W : ℚ} {p : Payload} {date : String}
    {o : List DrawOp} {yE s : ℚ} {sub vat : MVal}
    (h : imgPass1 tw W p date = .ok (o, yE, s, sub, vat)) :
    imgPass2 tw W p date sub vat = .ok (o, yE) := by
  simp only [imgPass1] at h
  simp only [imgPass2]
  split at h
  next => simp at h
  next itemOps yL item_sum heq =>
    rw [imgItemLoop2_of_loop1 tw W _ _ _ _ _ _ heq]
    simp only [Except.ok.injEq, Prod.mk.injEq] at h ⊢
    obtain ⟨ho, hy, hs, hsub, hvat⟩ := h
    rw [← hsub, ← hvat]
    exact ⟨ho, hy⟩

/-- Decomposition of a successful image pass 1: the item loop ran at
the cursor position determined by the header, the final cursor sits a
fixed distance below the loop's end, and the subtotal and VAT are
resolved from the payload and the accumulated item sum. -/
theorem imgPass1_parts {tw : TW} {W : ℚ} {p : Payload} {date : String}
    {o : List DrawOp} {yE s : ℚ} {sub vat : MVal}
    (h : imgPass1 tw W p date = .ok (o, yE, s, sub, vat)) :
    (∃ io y1 y2, imgItemLoop1 tw W (itemsOf p.items) y1 0 = .ok (io, y2, s)
      ∧ y1 = 322 + (if p.companyAddress.getD "" ≠ "" then (28 : ℚ) else 0)
                 + (if p.companyPhone.getD "" ≠ "" then (28 : ℚ) else 0)
      ∧ yE = y2 + 180)
    ∧ sub = (match p.subtotal with | some v => v | none => .num s)
    ∧ vat = (match p.vat with
             | some v => v
             | none => imgVatDerived (p.total.getD (.num 0)) sub) := by
  simp only [imgPass1] at h
  split at h
  next => simp at h
  next itemOps yL item_sum heq =>
    simp only [Except.ok.injEq, Prod.mk.injEq] at h
    obtain ⟨ho, hy, hs, hsub, hvat⟩ := h
    rw [hs] at heq hsub hvat
    refine ⟨⟨itemOps, _, yL, heq, ?_, ?_⟩, hsub.symm, ?_⟩
    · simp only [imgMargin, imgLineH]
      ring
    · rw [← hy]
      simp only [imgLineH]
      ring
    · rw [← hvat, hsub]

/-- The image pass 1 succeeds whenever every item's quantity and unit
price are numeric. -/
theorem imgPass1_total (tw : TW) (W : ℚ) (p : Payload) (date : String)
    (hqp : qpNumeric (itemsOf p.items) = true) :
    ∃ o yE s sub vat, imgPass1 tw W p date = .ok (o, yE, s, sub, vat) := by
  obtain ⟨io, y2, s2, hL⟩ := imgItemLoop1_total tw W (itemsOf p.items)
    (imgMargin + imgLineH + (if p.companyAddress.getD "" ≠ "" then imgLineH else 0)
      + (if p.companyPhone.getD "" ≠ "" then imgLineH else 0) + 6
      + imgLineH + imgLineH + imgLineH + 4 + imgLineH + imgLineH + 4
      + imgLineH + imgLineH + 8 + imgLineH + imgLineH + 4) 0 hqp
  simp only [imgPass1, hL]
  exact ⟨_, _, _, _, _, rfl⟩

/-- Decomposition of a successful PDF pass 1: the drawing loop and the
separate item-sum loop both ran, the final cursor sits a fixed distance
below the drawing loop's end (one line **less** than in pass 2, because
this pass does not advance between the Items-count and Subtotal rows),
and the figures resolve from the payload. -/
theorem pdfPass1_parts {tw : TW} {p : Payload} {date : String}
    {o : List DrawOp} {yE s : ℚ} {sub vat : MVal}
    (h : pdfPass1 tw p date = .ok (o, yE, s, sub, vat)) :
    (∃ io y1 y2, pdfItemLoop1 tw (itemsOf p.items) y1 = .ok (io, y2)
      ∧ y1 = pdfTempH - 182 - (if p.companyAddress.getD "" ≠ "" then (14 : ℚ) else 0)
                           - (if p.companyPhone.getD "" ≠ "" then (14 : ℚ) else 0)
      ∧ yE = y2 - 82)
    ∧ pdfItemSum (itemsOf p.items) 0 = .ok s
    ∧ sub = (match p.subtotal with | some v => v | none => .num s)
    ∧ (match p.vat with
       | some v => Except.ok v
       | none => pdfVatDerived (p.total.getD (.num 0)) sub) = .ok vat := by
  simp only [pdfPass1] at h
  split at h
  next => simp at h
  next itemOps yL heq =>
    split at h
    next => simp at h
    next item_sum hsum =>
      split at h
      next => simp at h
      next vatV hvat =>
        simp only [Except.ok.injEq, Prod.mk.injEq] at h
        obtain ⟨ho, hy, hs, hsub, hv⟩ := h
        rw [hs] at hsum hsub hvat
        refine ⟨⟨itemOps, _, yL, heq, ?_, ?_⟩, hsum, hsub.symm, ?_⟩
        · simp only [pdfMargin, pdfLineH]
          ring
        · rw [← hy]
          simp only [pdfLineH]
          ring
        · rw [hsub, hv] at hvat
          exact hvat

/-- Decomposition of a successful image build: pass 1 produced exactly
the stored components, the height is the floor-clamped consumed extent,
and pass 2 re-emitted exactly the pass-1 op sequence. -/
theorem build_receipt_image_ok {tw : TW} {W : ℚ} {p : Payload} {now : String}
    {r : ImgResult} (h : build_receipt_image tw W p now = .ok r) :
    imgPass1 tw W p (p.date.getD now) = .ok (r.ops1, r.yEnd, r.itemSum, r.subtotalV, r.vatV)
    ∧ r.height = max (r.yEnd + imgMargin + 10) 800
    ∧ r.ops2 = r.ops1 := by
  simp only [build_receipt_image] at h
  split at h
  next => simp at h
  next o1 yE s sub vat heq1 =>
    split at h
    next e heq2 =>
      rw [imgPass2_of_pass1 heq1] at heq2
      simp at heq2
    next o2 y2 heq2 =>
      rw [imgPass2_of_pass1 heq1] at heq2
      simp only [Except.ok.injEq, Prod.mk.injEq] at heq2 h
      obtain ⟨ho2, -⟩ := heq2
      rw [← h]
      exact ⟨heq1, rfl, ho2.symm⟩

/-- Decomposition of a successful PDF build: pass 1 produced exactly
the stored components and the height is the floor-clamped used height
measured by pass 1. -/
theorem build_receipt_pdf_ok {tw : TW} {p : Payload} {now : String}
    {r : PdfResult} (h : build_receipt_pdf tw p now = .ok r) :
    pdfPass1 tw p (p.date.getD now) = .ok (r.ops1, r.yEnd, r.itemSum, r.subtotalV, r.vatV)
    ∧ r.height = max (pdfTempH - (r.yEnd - pdfMargin)) (100 * mmQ) := by
  simp only [build_receipt_pdf] at h
  split at h
  next => simp at h
  next o1 yE s sub vat heq1 =>
    split at h
    next => simp at h
    next o2 y2 heq2 =>
      simp only [Except.ok.injEq] at h
      rw [← h]
      exact ⟨heq1, rfl⟩

/-! ## Claim theorems -/

/-- C2: for every payload, the pass-2 final surface height equals
`max(consumedExtent, minimumFloor)`, where `consumedExtent` is the
distance the pass-1 cursor travelled from its start (`margin` for the
image, `temp_height - margin - 10` for the PDF) plus a fixed bottom
margin (`2 * margin + 10` in both renderers), and the floor is 800 px
for the image renderer and 100 mm for the PDF renderer; consequently
the final height is never below the floor. -/
theorem C2_final_height_formula :
    (∀ (tw : TW) (W : ℚ) (p : Payload) (now : String) (h yE : ℚ),
        imgHeightOf tw W p now = some h → imgYEndOf tw W p now = some yE →
        h = max ((yE - imgMargin) + (2 * imgMargin + 10)) 800 ∧ 800 ≤ h)
    ∧ (∀ (tw : TW) (p : Payload) (now : String) (h yE : ℚ),
        pdfHeightOf tw p now = some h → pdfYEndOf tw p now = some yE →
        h = max (((pdfTempH - pdfMargin - 10) - yE) + (2 * pdfMargin + 10)) (100 * mmQ)
          ∧ 100 * mmQ ≤ h) := by
  constructor
  · intro tw W p now h yE hh hy
    cases hb : build_receipt_image tw W p now with
    | error e => simp [imgHeightOf, hb, Except.toOption] at hh
    | ok r =>
      simp [imgHeightOf, hb, Except.toOption] at hh
      simp [imgYEndOf, hb, Except.toOption] at hy
      obtain ⟨-, hht, -⟩ := build_receipt_image_ok hb
      subst hh hy
      constructor
      · rw [hht]
        congr 1
        simp only [imgMargin]
        ring
      · rw [hht]
        exact le_max_right _ _
  · intro tw p now h yE hh hy
    cases hb : build_receipt_pdf tw p now with
    | error e => simp [pdfHeightOf, hb, Except.toOption] at hh
    | ok r =>
      simp [pdfHeightOf, hb, Except.toOption] at hh
      simp [pdfYEndOf, hb, Except.toOption] at hy
      obtain ⟨-, hht⟩ := build_receipt_pdf_ok hb
      subst hh hy
      constructor
      · rw [hht]
        congr 1
        simp only [pdfMargin]
        ring
      · rw [hht]
        exact le_max_right _ _

/-- Witness for C2 at the empty payload: the image height is exactly
the 800 px floor and the PDF height exactly the 100 mm floor. -/
theorem C2_final_height_formula_witness :
    ((800 : ℚ) = max (((502 : ℚ) - imgMargin) + (2 * imgMargin + 10)) 800 ∧ (800 : ℚ) ≤ 800)
    ∧ ((36000 / 127 : ℚ) =
          max (((pdfTempH - pdfMargin - 10) - (pdfTempH - 264)) + (2 * pdfMargin + 10)) (100 * mmQ)
        ∧ 100 * mmQ ≤ (36000 / 127 : ℚ)) :=
  ⟨C2_final_height_formula.1 tw0 576 pEmpty "01/01/2024" 800 502
     (by simp [imgHeightOf, build_receipt_image, imgPass1, imgPass2, imgItemLoop1,
           imgItemLoop2, itemsOf, pEmpty, imgMargin, imgLineH, imgVatDerived, pyFloat,
           pyOr0, Except.toOption]; norm_num)
     (by simp [imgYEndOf, build_receipt_image, imgPass1, imgPass2, imgItemLoop1,
           imgItemLoop2, itemsOf, pEmpty, imgMargin, imgLineH, imgVatDerived, pyFloat,
           pyOr0, Except.toOption]; norm_num),
   C2_final_height_formula.2 tw0 pEmpty "01/01/2024" (36000 / 127) (pdfTempH - 264)
     (by simp [pdfHeightOf, build_receipt_pdf, pdfPass1, pdfPass2, pdfItemLoop1,
           pdfItemLoop2, pdfItemSum, itemsOf, pEmpty, pdfMargin, pdfLineH, pdfTempH, mmQ,
           pdfVatDerived, pyFloat, pyOr0, Except.toOption]; norm_num)
     (by simp [pdfYEndOf, build_receipt_pdf, pdfPass1, pdfPass2, pdfItemLoop1,
           pdfItemLoop2, pdfItemSum, itemsOf, pEmpty, pdfMargin, pdfLineH, pdfTempH, mmQ,
           pdfVatDerived, pyFloat, pyOr0, Except.toOption]; norm_num)⟩

/-- Digit characters are digits: the character with code `48 + k` for
`k < 10` satisfies `Char.isDigit`. -/
theorem char_ofNat_isDigit : ∀ k : ℕ, k < 10 → (Char.ofNat (48 + k)).isDigit = true := by
  intro k hk
  interval_cases k <;> decide

/-- C5: the monetary formatter always renders some integer part, a
point, exactly two decimal digits and the fixed suffix " AED"; a
non-numeric input (such as `None`) renders as "0.00 AED"; the formatter
never raises (it is a total function) and never returns a blank string;
and `fmt_amount 12 = "12.00 AED"`. -/
theorem C5_fmt_amount_shape :
    (∀ v : MVal, ∃ pre n, n < 100 ∧ fmt_amount v = pre ++ "." ++ twoDigits n ++ " AED")
    ∧ (∀ n : ℕ, n < 100 → (twoDigits n).length = 2 ∧ (twoDigits n).data.all Char.isDigit = true)
    ∧ fmt_amount .bad = "0.00 AED"
    ∧ fmt_amount (.num 12) = "12.00 AED"
    ∧ (∀ v : MVal, fmt_amount v ≠ "") := by
  refine ⟨?_, ?_, rfl, ?_, ?_⟩
  · intro v
    cases v with
    | bad => exact ⟨"0", 0, by norm_num, by decide⟩
    | num q =>
      exact ⟨(if roundHalfEven (q * 100) < 0 then "-" else "")
          ++ toString ((roundHalfEven (q * 100)).natAbs / 100),
        (roundHalfEven (q * 100)).natAbs % 100, Nat.mod_lt _ (by norm_num), rfl⟩
  · intro n hn
    constructor
    · simp [twoDigits, String.length]
    · simp only [twoDigits, List.all_cons, List.all_nil, Bool.and_true]
      rw [char_ofNat_isDigit (n / 10 % 10) (Nat.mod_lt _ (by norm_num)),
        char_ofNat_isDigit (n % 10) (Nat.mod_lt _ (by norm_num))]
      rfl
  · norm_num [fmt_amount, pyFloat, fmt2, roundHalfEven]
    decide
  · intro v
    cases v with
    | bad => decide
    | num q =>
      intro h
      have hlen := congrArg String.length h
      simp [fmt_amount, pyFloat, String.length_append] at hlen
      exact absurd hlen.2 (by decide)

/-- Witness for C5: the two-decimal block of `twoDigits 34` really has
length two and consists of digits. -/
theorem C5_fmt_amount_shape_witness :
    (twoDigits 34).length = 2 ∧ (twoDigits 34).data.all Char.isDigit = true :=
  C5_fmt_amount_shape.2.1 34 (by norm_num)

/-- A two-item fixture: one item without a per-item total (2 × 5), one
with an explicit total (7). -/
def lC3 : List Item :=
  [⟨"A", some (.num 2), some (.num 5), none⟩, ⟨"B", some (.num 1), some (.num 3), some (.num 7)⟩]

/-- Fixture payload for the item-sum claims. -/
def pC3 : Payload := withItems pEmpty lC3

/-- C3: for every items list with numeric fields, both builders compute
`itemSum = Σ (item.total if present else quantity × unitPrice)`, and
when `payload.subtotal` is absent the derived subtotal equals itemSum
exactly. -/
theorem C3_item_sum_reconciliation :
    ∀ (tw : TW) (W : ℚ) (p : Payload) (now : String),
      itemsNumeric (itemsOf p.items) = true →
      (∀ s, imgItemSumOf tw W p now = some s → s = specItemSum (itemsOf p.items))
      ∧ (∀ s, pdfItemSumOf tw p now = some s → s = specItemSum (itemsOf p.items))
      ∧ (p.subtotal = none →
          (∀ v, imgSubtotalOf tw W p now = some v → v = .num (specItemSum (itemsOf p.items)))
          ∧ (∀ v, pdfSubtotalOf tw p now = some v → v = .num (specItemSum (itemsOf p.items)))) := by
  intro tw W p now hnum
  refine ⟨?_, ?_, ?_⟩
  · intro s hs
    cases hb : build_receipt_image tw W p now with
    | error e => simp [imgItemSumOf, hb, Except.toOption] at hs
    | ok r =>
      simp [imgItemSumOf, hb, Except.toOption] at hs
      obtain ⟨h1, -, -⟩ := build_receipt_image_ok hb
      obtain ⟨⟨io, y1, y2, hL, -, -⟩, -, -⟩ := imgPass1_parts h1
      have := imgItemLoop1_sum tw W _ _ _ _ _ _ hnum hL
      rw [← hs, this, zero_add]
  · intro s hs
    cases hb : build_receipt_pdf tw p now with
    | error e => simp [pdfItemSumOf, hb, Except.toOption] at hs
    | ok r =>
      simp [pdfItemSumOf, hb, Except.toOption] at hs
      obtain ⟨h1, -⟩ := build_receipt_pdf_ok hb
      obtain ⟨-, hsum, -, -⟩ := pdfPass1_parts h1
      rw [pdfItemSum_numeric _ _ hnum] at hsum
      simp only [Except.ok.injEq] at hsum
      rw [← hs, ← hsum, zero_add]
  · intro hsub
    constructor
    · intro v hv
      cases hb : build_receipt_image tw W p now with
      | error e => simp [imgSubtotalOf, hb, Except.toOption] at hv
      | ok r =>
        simp [imgSubtotalOf, hb, Except.toOption] at hv
        obtain ⟨h1, -, -⟩ := build_receipt_image_ok hb
        obtain ⟨⟨io, y1, y2, hL, -, -⟩, hsubV, -⟩ := imgPass1_parts h1
        have hsum := imgItemLoop1_sum tw W _ _ _ _ _ _ hnum hL
        rw [hsub] at hsubV
        rw [← hv, hsubV, hsum, zero_add]
    · intro v hv
      cases hb : build_receipt_pdf tw p now with
      | error e => simp [pdfSubtotalOf, hb, Except.toOption] at hv
      | ok r =>
        simp [pdfSubtotalOf, hb, Except.toOption] at hv
        obtain ⟨h1, -⟩ := build_receipt_pdf_ok hb
        obtain ⟨-, hsum, hsubV, -⟩ := pdfPass1_parts h1
        rw [pdfItemSum_numeric _ _ hnum] at hsum
        simp only [Except.ok.injEq] at hsum
        rw [hsub] at hsubV
        rw [← hv, hsubV, ← hsum, zero_add]

/-- Witness for C3 at the two-item fixture: both builders report item
sum 17 = 2 × 5 + 7. -/
theorem C3_item_sum_reconciliation_witness :
    (17 : ℚ) = specItemSum (itemsOf pC3.items)
    ∧ MVal.num 17 = .num (specItemSum (itemsOf pC3.items)) :=
  ⟨(C3_item_sum_reconciliation tw0 576 pC3 "01/01/2024" (by decide)).1 17
     (by simp [imgItemSumOf, build_receipt_image, imgPass1, imgPass2, imgItemLoop1,
           imgItemLoop2, itemsOf, pC3, withItems, pEmpty, lC3, imgVatDerived, pyFloat,
           pyMul, metaStr, pyOr0, Except.toOption]; norm_num),
   ((C3_item_sum_reconciliation tw0 576 pC3 "01/01/2024" (by decide)).2.2 rfl).1 (.num 17)
     (by simp [imgSubtotalOf, build_receipt_image, imgPass1, imgPass2, imgItemLoop1,
           imgItemLoop2, itemsOf, pC3, withItems, pEmpty, lC3, imgVatDerived, pyFloat,
           pyMul, metaStr, pyOr0, Except.toOption]; norm_num)⟩

/-- Fixture payload carrying an explicitly negative VAT value. -/
def pC4 : Payload :=
  ⟨none, none, none, none, none, none, .absent, none, none, none, some (.num (-1))⟩

/-- C4 counterexample: a payload that supplies `vat = -1` is rendered
with a negative VAT figure by both entry points, refuting "the
resulting vat value is never negative regardless of the input
total/subtotal/vat combination". -/
theorem C4_negative_vat_counterexample :
    imgVatOf tw0 576 pC4 "01/01/2024" = some (.num (-1))
    ∧ pdfVatOf tw0 pC4 "01/01/2024" = some (.num (-1))
    ∧ ((-1 : ℚ) < 0) := by
  refine ⟨?_, ?_, by norm_num⟩
  · simp [imgVatOf, build_receipt_image, imgPass1, imgPass2, imgItemLoop1, imgItemLoop2,
      itemsOf, pC4, imgVatDerived, pyFloat, pyOr0, Except.toOption]
  · simp [pdfVatOf, build_receipt_pdf, pdfPass1, pdfPass2, pdfItemLoop1, pdfItemLoop2,
      pdfItemSum, itemsOf, pC4, pdfVatDerived, pyFloat, pyOr0, Except.toOption]

/-- C4 amended: the vat figure equals `payload.vat` verbatim whenever
that field is present (so a supplied negative VAT is rendered as such);
when the field is absent, the derived figure
`max(total - subtotal, 0)` (0 on conversion failure) is never
negative. -/
theorem C4_vat_amended :
    (∀ (tw : TW) (W : ℚ) (p : Payload) (now : String) (v0 vv : MVal),
        p.vat = some v0 → imgVatOf tw W p now = some vv → vv = v0)
    ∧ (∀ (tw : TW) (W : ℚ) (p : Payload) (now : String) (vv : MVal),
        p.vat = none → imgVatOf tw W p now = some vv → ∃ q, vv = .num q ∧ 0 ≤ q)
    ∧ (∀ (tw : TW) (p : Payload) (now : String) (v0 vv : MVal),
        p.vat = some v0 → pdfVatOf tw p now = some vv → vv = v0)
    ∧ (∀ (tw : TW) (p : Payload) (now : String) (vv : MVal),
        p.vat = none → pdfVatOf tw p now = some vv → ∃ q, vv = .num q ∧ 0 ≤ q) := by
  refine ⟨?_, ?_, ?_, ?_⟩
  · intro tw W p now v0 vv hp hv
    cases hb : build_receipt_image tw W p now with
    | error e => simp [imgVatOf, hb, Except.toOption] at hv
    | ok r =>
      simp [imgVatOf, hb, Except.toOption] at hv
      obtain ⟨h1, -, -⟩ := build_receipt_image_ok hb
      obtain ⟨-, -, hvat⟩ := imgPass1_parts h1
      rw [hp] at hvat
      rw [← hv, hvat]
  · intro tw W p now vv hp hv
    cases hb : build_receipt_image tw W p now with
    | error e => simp [imgVatOf, hb, Except.toOption] at hv
    | ok r =>
      simp [imgVatOf, hb, Except.toOption] at hv
      obtain ⟨h1, -, -⟩ := build_receipt_image_ok hb
      obtain ⟨-, -, hvat⟩ := imgPass1_parts h1
      rw [hp] at hvat
      rw [← hv, hvat]
      unfold imgVatDerived
      cases pyFloat (p.total.getD (.num 0)) with
      | error e => exact ⟨0, rfl, le_refl 0⟩
      | ok t => exact ⟨_, rfl, le_max_right _ 0⟩
  · intro tw p now v0 vv hp hv
    cases hb : build_receipt_pdf tw p now with
    | error e => simp [pdfVatOf, hb, Except.toOption] at hv
    | ok r =>
      simp [pdfVatOf, hb, Except.toOption] at hv
      obtain ⟨h1, -⟩ := build_receipt_pdf_ok hb
      obtain ⟨-, -, -, hvat⟩ := pdfPass1_parts h1
      rw [hp] at hvat
      simp only [Except.ok.injEq] at hvat
      rw [← hv, hvat]
  · intro tw p now vv hp hv
    cases hb : build_receipt_pdf tw p now with
    | error e => simp [pdfVatOf, hb, Except.toOption] at hv
    | ok r =>
      simp [pdfVatOf, hb, Except.toOption] at hv
      obtain ⟨h1, -⟩ := build_receipt_pdf_ok hb
      obtain ⟨-, -, -, hvat⟩ := pdfPass1_parts h1
      rw [hp] at hvat
      unfold pdfVatDerived at hvat
      cases hT : p.total.getD (.num 0) with
      | bad => rw [hT] at hvat; simp at hvat
      | num t =>
        rw [hT] at hvat
        simp only [Except.ok.injEq] at hvat
        rw [← hv, ← hvat]
        exact ⟨_, rfl, le_max_right _ 0⟩

/-- Witness for C4 amended: with `vat` absent the empty payload derives
the non-negative VAT 0. -/
theorem C4_vat_amended_witness :
    ∃ q, MVal.num 0 = MVal.num q ∧ 0 ≤ q :=
  C4_vat_amended.2.1 tw0 576 pEmpty "01/01/2024" (.num 0) rfl
    (by simp [imgVatOf, build_receipt_image, imgPass1, imgPass2, imgItemLoop1, imgItemLoop2,
          itemsOf, pEmpty, imgVatDerived, pyFloat, pyOr0, Except.toOption])

/-- Fixture payload with one item whose unit price is non-numeric
(a `None`-like value). -/
def pC6 : Payload :=
  ⟨none, none, none, none, none, none, .list [⟨"X", some (.num 1), some .bad, none⟩],
   none, none, none, none⟩

/-- C6 counterexample: an item whose `unitPrice` cannot be used as a
number makes both builders raise (the eager `qty * price` default and
the two-decimal meta-line formatting), so the failure is surfaced to
the caller instead of being recovered by zero substitution. -/
theorem C6_unparsable_price_raises :
    build_receipt_image tw0 576 pC6 "01/01/2024" = .error ()
    ∧ build_receipt_pdf tw0 pC6 "01/01/2024" = .error () := by
  constructor
  · simp [build_receipt_image, imgPass1, imgItemLoop1, itemsOf, pC6, pyMul, metaStr,
      Option.getD]
  · simp [build_receipt_pdf, pdfPass1, pdfItemLoop1, itemsOf, pC6, pyMul, metaStr,
      Option.getD]

/-- C6 amended: local zero-substitution holds only where the source
guards the conversion — the amount formatters fall back to "0.00 AED"
and the image builder tolerates an unparseable per-item `total` (so it
succeeds whenever every quantity and unit price is numeric) — but an
unparseable quantity or unit price raises out of either builder. -/
theorem C6_amended_local_recovery :
    (∀ (tw : TW) (W : ℚ) (p : Payload) (now : String),
        qpNumeric (itemsOf p.items) = true →
        ∃ r, build_receipt_image tw W p now = .ok r)
    ∧ fmt_amount .bad = "0.00 AED" ∧ _fmt_amount .bad = "0.00 AED" := by
  refine ⟨?_, rfl, rfl⟩
  intro tw W p now hqp
  obtain ⟨o, yE, s, sub, vat, h1⟩ := imgPass1_total tw W p (p.date.getD now) hqp
  refine ⟨⟨o, o, yE, max (yE + imgMargin + 10) 800, s, sub, vat⟩, ?_⟩
  simp only [build_receipt_image, h1, imgPass2_of_pass1 h1]

/-- Witness for C6 amended: the image build succeeds on a payload whose
only item has numeric quantity and price but a non-numeric total. -/
theorem C6_amended_local_recovery_witness :
    ∃ r, build_receipt_image tw0 576
      ⟨none, none, none, none, none, none,
       .list [⟨"X", some (.num 1), some (.num 2), some .bad⟩], none, none, none, none⟩
      "01/01/2024" = .ok r :=
  C6_amended_local_recovery.1 tw0 576
    ⟨none, none, none, none, none, none,
     .list [⟨"X", some (.num 1), some (.num 2), some .bad⟩], none, none, none, none⟩
    "01/01/2024" (by decide)

/-- Fixture payload with an explicit date field. -/
def pDated : Payload :=
  ⟨none, none, none, none, some "05/05/2025", none, .absent, none, none, none, none⟩

/-- C8 counterexample: the `date` default reads the current clock, so
re-rendering the identical (date-less) payload under two different
current dates yields different draw sequences, refuting byte-identical
idempotence over every payload. -/
theorem C8_date_default_nondeterminism :
    build_receipt_image tw0 576 pEmpty "01/01/2024"
      ≠ build_receipt_image tw0 576 pEmpty "02/01/2024" := by
  intro h
  have h1 : imgOps1Of tw0 576 pEmpty "01/01/2024"
      = imgOps1Of tw0 576 pEmpty "02/01/2024" := by
    rw [imgOps1Of, imgOps1Of, h]
  simp [imgOps1Of, build_receipt_image, imgPass1, imgPass2, imgItemLoop1, imgItemLoop2,
    itemsOf, pEmpty, imgVatDerived, pyFloat, pyOr0, Except.toOption, imgLeft] at h1

/-- C8 amended: each builder is a pure function of the payload and the
current-date string, so whenever the payload carries its own `date`
field the rendered output is identical across repeated calls,
independent of the clock. -/
theorem C8_deterministic_given_date :
    ∀ (tw : TW) (W : ℚ) (p : Payload) (d now now2 : String), p.date = some d →
      build_receipt_image tw W p now = build_receipt_image tw W p now2
      ∧ build_receipt_pdf tw p now = build_receipt_pdf tw p now2 := by
  intro tw W p d now now2 hd
  constructor
  · simp only [build_receipt_image, hd, Option.getD_some]
  · simp only [build_receipt_pdf, hd, Option.getD_some]

/-- Witness for C8 amended: with an explicit date field the two builds
under different clock dates coincide. -/
theorem C8_deterministic_given_date_witness :
    build_receipt_image tw0 576 pDated "01/01/2024"
        = build_receipt_image tw0 576 pDated "02/01/2024"
    ∧ build_receipt_pdf tw0 pDated "01/01/2024"
        = build_receipt_pdf tw0 pDated "02/01/2024" :=
  C8_deterministic_given_date tw0 576 pDated "05/05/2025" "01/01/2024" "02/01/2024" rfl

/-- A one-line fixture item (1 × 2, no explicit total). -/
def itC7 : Item := ⟨"I", some (.num 1), some (.num 2), none⟩

/-- Five copies of the fixture item. -/
def lC7 : List Item := [itC7, itC7, itC7, itC7, itC7]

/-- C7: for every payload, the final height is `max(base + n·perItem,
floor)` where `base` depends only on the fixed non-item rows (including
the optional address/phone lines), the per-item advance is 58 px
(image) and 30 pt (PDF); hence the height is monotonically
non-decreasing in the item count and, whenever it exceeds the floor,
equals exactly `base + n·perItem`. -/
theorem C7_height_affine_in_item_count :
    (∀ (tw : TW) (W : ℚ) (p : Payload) (now : String) (l : List Item) (h : ℚ),
        imgHeightOf tw W (withItems p l) now = some h →
        h = max (imgBase p + 58 * l.length) 800
          ∧ (800 < h → h = imgBase p + 58 * l.length))
    ∧ (∀ (tw : TW) (W : ℚ) (p : Payload) (now : String) (l l2 : List Item) (h h2 : ℚ),
        imgHeightOf tw W (withItems p l) now = some h →
        imgHeightOf tw W (withItems p l2) now = some h2 →
        l.length ≤ l2.length → h ≤ h2)
    ∧ (∀ (tw : TW) (p : Payload) (now : String) (l : List Item) (h : ℚ),
        pdfHeightOf tw (withItems p l) now = some h →
        h = max (pdfBase p + 30 * l.length) (100 * mmQ)
          ∧ (100 * mmQ < h → h = pdfBase p + 30 * l.length))
    ∧ (∀ (tw : TW) (p : Payload) (now : String) (l l2 : List Item) (h h2 : ℚ),
        pdfHeightOf tw (withItems p l) now = some h →
        pdfHeightOf tw (withItems p l2) now = some h2 →
        l.length ≤ l2.length → h ≤ h2) := by
  have imgKey : ∀ (tw : TW) (W : ℚ) (p : Payload) (now : String) (l : List Item) (h : ℚ),
      imgHeightOf tw W (withItems p l) now = some h →
      h = max (imgBase p + 58 * l.length) 800 := by
    intro tw W p now l h hh
    cases hb : build_receipt_image tw W (withItems p l) now with
    | error e => simp [imgHeightOf, hb, Except.toOption] at hh
    | ok r =>
      simp [imgHeightOf, hb, Except.toOption] at hh
      obtain ⟨h1, hht, -⟩ := build_receipt_image_ok hb
      obtain ⟨⟨io, y1, y2, hL, hy1, hyE⟩, -, -⟩ := imgPass1_parts h1
      have hy2 := imgItemLoop1_y tw W _ _ _ _ _ _ hL
      simp only [withItems, itemsOf] at hy2 hy1
      rw [← hh, hht, hyE, hy2, hy1]
      congr 1
      simp only [imgBase, imgMargin]
      ring
  have pdfKey : ∀ (tw : TW) (p : Payload) (now : String) (l : List Item) (h : ℚ),
      pdfHeightOf tw (withItems p l) now = some h →
      h = max (pdfBase p + 30 * l.length) (100 * mmQ) := by
    intro tw p now l h hh
    cases hb : build_receipt_pdf tw (withItems p l) now with
    | error e => simp [pdfHeightOf, hb, Except.toOption] at hh
    | ok r =>
      simp [pdfHeightOf, hb, Except.toOption] at hh
      obtain ⟨h1, hht⟩ := build_receipt_pdf_ok hb
      obtain ⟨⟨io, y1, y2, hL, hy1, hyE⟩, -, -, -⟩ := pdfPass1_parts h1
      have hy2 := pdfItemLoop1_y tw _ _ _ _ hL
      simp only [withItems, itemsOf] at hy2 hy1
      rw [← hh, hht, hyE, hy2, hy1]
      congr 1
      simp only [pdfBase, pdfMargin]
      ring
  have above : ∀ (B f h : ℚ), h = max B f → f < h → h = B := by
    intro B f h hf hlt
    rcases le_or_lt B f with hle | hgt
    · rw [hf, max_eq_right hle] at hlt
      exact absurd hlt (lt_irrefl f)
    · rw [hf, max_eq_left (le_of_lt hgt)]
  refine ⟨?_, ?_, ?_, ?_⟩
  · intro tw W p now l h hh
    exact ⟨imgKey tw W p now l h hh, fun hgt => above _ _ _ (imgKey tw W p now l h hh) hgt⟩
  · intro tw W p now l l2 h h2 hh hh2 hle
    rw [imgKey tw W p now l h hh, imgKey tw W p now l2 h2 hh2]
    refine max_le_max (add_le_add_left ?_ _) le_rfl
    exact mul_le_mul_of_nonneg_left (Nat.cast_le.mpr hle) (by norm_num)
  · intro tw p now l h hh
    exact ⟨pdfKey tw p now l h hh, fun hgt => above _ _ _ (pdfKey tw p now l h hh) hgt⟩
  · intro tw p now l l2 h h2 hh hh2 hle
    rw [pdfKey tw p now l h hh, pdfKey tw p now l2 h2 hh2]
    refine max_le_max (add_le_add_left ?_ _) le_rfl
    exact mul_le_mul_of_nonneg_left (Nat.cast_le.mpr hle) (by norm_num)

/-- Witness for C7: five fixture items push the image height above the
floor to exactly 528 + 5·58 = 818 px, and one item pushes the PDF
height to exactly 272 + 30 = 302 pt. -/
theorem C7_height_affine_in_item_count_witness :
    ((818 : ℚ) = max (imgBase pEmpty + 58 * (lC7.length : ℚ)) 800
      ∧ ((800 : ℚ) < 818 → (818 : ℚ) = imgBase pEmpty + 58 * (lC7.length : ℚ)))
    ∧ ((302 : ℚ) = max (pdfBase pEmpty + 30 * (([itC7] : List Item).length : ℚ)) (100 * mmQ)
      ∧ (100 * mmQ < (302 : ℚ) →
          (302 : ℚ) = pdfBase pEmpty + 30 * (([itC7] : List Item).length : ℚ))) :=
  ⟨C7_height_affine_in_item_count.1 tw0 576 pEmpty "01/01/2024" lC7 818
     (by simp [imgHeightOf, build_receipt_image, imgPass1, imgPass2, imgItemLoop1,
           imgItemLoop2, itemsOf, withItems, pEmpty, lC7, itC7, imgVatDerived, pyFloat,
           pyMul, metaStr, pyOr0, Except.toOption, imgMargin, imgLineH]; norm_num),
   C7_height_affine_in_item_count.2.2.1 tw0 pEmpty "01/01/2024" [itC7] 302
     (by simp [pdfHeightOf, build_receipt_pdf, pdfPass1, pdfPass2, pdfItemLoop1,
           pdfItemLoop2, pdfItemSum, itemsOf, withItems, pEmpty, itC7, pdfVatDerived,
           pyFloat, pyMul, pyAdd, metaStr, pyOr0, Except.toOption, pdfTempH, mmQ,
           pdfMargin, pdfLineH]; norm_num)⟩

/-- The PDF pass 1 succeeds when item quantities and prices are numeric,
item totals are numeric (for the unguarded sum), and, unless `vat` is
supplied, the payload total is numeric (for the unguarded derivation). -/
theorem pdfPass1_total (tw : TW) (p : Payload) (date : String)
    (hqp : qpNumeric (itemsOf p.items) = true)
    (hin : itemsNumeric (itemsOf p.items) = true)
    (hv : p.vat = none → (p.total.getD (.num 0)).isNum = true) :
    ∃ o yE s sub vat, pdfPass1 tw p date = .ok (o, yE, s, sub, vat) := by
  obtain ⟨io, y2, hL⟩ := pdfItemLoop1_total tw (itemsOf p.items)
    (pdfTempH - pdfMargin - 10 - pdfLineH
      - (if p.companyAddress.getD "" ≠ "" then pdfLineH else 0)
      - (if p.companyPhone.getD "" ≠ "" then pdfLineH else 0)
      - 4 - pdfLineH - pdfLineH - (pdfLineH + 4) - pdfLineH - (pdfLineH + 4)
      - pdfLineH - (pdfLineH + 8) - pdfLineH - (pdfLineH + 4)) hqp
  have hsum := pdfItemSum_numeric (itemsOf p.items) 0 hin
  cases hpv : p.vat with
  | some v =>
    simp only [pdfPass1, hL, hsum, hpv]
    exact ⟨_, _, _, _, _, rfl⟩
  | none =>
    cases hT : p.total.getD (.num 0) with
    | bad =>
      have := hv hpv
      rw [hT] at this
      simp [MVal.isNum] at this
    | num t =>
      simp only [pdfPass1, hL, hsum, hpv, pdfVatDerived, hT]
      exact ⟨_, _, _, _, _, rfl⟩

/-- The PDF pass 2 succeeds for any page height when item quantities
and prices are numeric. -/
theorem pdfPass2_total (tw : TW) (p : Payload) (date : String) (sub vat : MVal) (H : ℚ)
    (hqp : qpNumeric (itemsOf p.items) = true) :
    ∃ o y, pdfPass2 tw p date sub vat H = .ok (o, y) := by
  obtain ⟨io, y2, hL⟩ := pdfItemLoop1_total tw (itemsOf p.items)
    (H - pdfMargin - 10 - pdfLineH
      - (if p.companyAddress.getD "" ≠ "" then pdfLineH else 0)
      - (if p.companyPhone.getD "" ≠ "" then pdfLineH else 0)
      - 4 - pdfLineH - pdfLineH - (pdfLineH + 4) - pdfLineH - (pdfLineH + 4)
      - pdfLineH - (pdfLineH + 8) - pdfLineH - (pdfLineH + 4)) hqp
  have hL2 := pdfItemLoop2_of_loop1 tw _ _ _ _ hL
  simp only [pdfPass2, hL2]
  exact ⟨_, _, rfl⟩

/-- The PDF build succeeds under the combined numeric side conditions. -/
theorem build_receipt_pdf_total (tw : TW) (p : Payload) (now : String)
    (hqp : qpNumeric (itemsOf p.items) = true)
    (hin : itemsNumeric (itemsOf p.items) = true)
    (hv : p.vat = none → (p.total.getD (.num 0)).isNum = true) :
    ∃ r, build_receipt_pdf tw p now = .ok r := by
  obtain ⟨o, yE, s, sub, vat, h1⟩ := pdfPass1_total tw p (p.date.getD now) hqp hin hv
  obtain ⟨o2, y2, h2⟩ := pdfPass2_total tw p (p.date.getD now) sub vat
    (max (pdfTempH - (yE - pdfMargin)) (100 * mmQ)) hqp
  refine ⟨⟨o, o2, yE, max (pdfTempH - (yE - pdfMargin)) (100 * mmQ), s, sub, vat⟩, ?_⟩
  simp only [build_receipt_pdf, h1, h2]

/-- The image pass 1 draws the items-count row: the item count rendered
as a right-aligned string. -/
theorem imgPass1_count_row {tw : TW} {W : ℚ} {p : Payload} {date : String}
    {o : List DrawOp} {yE s : ℚ} {sub vat : MVal}
    (h : imgPass1 tw W p date = .ok (o, yE, s, sub, vat)) :
    ∃ x y, DrawOp.text (toString (itemsOf p.items).length) x y 22 ∈ o := by
  simp only [imgPass1] at h
  split at h
  next => simp at h
  next itemOps yL item_sum heq =>
    simp only [Except.ok.injEq, Prod.mk.injEq] at h
    obtain ⟨ho, -⟩ := h
    refine ⟨W - imgMargin - tw (toString (itemsOf p.items).length) 22, yL + 2 + imgLineH, ?_⟩
    rw [← ho]
    simp [imgRight, List.mem_append, List.mem_cons]

/-- The PDF pass 1 draws the items-count row: the item count rendered
as a right-aligned string. -/
theorem pdfPass1_count_row {tw : TW} {p : Payload} {date : String}
    {o : List DrawOp} {yE s : ℚ} {sub vat : MVal}
    (h : pdfPass1 tw p date = .ok (o, yE, s, sub, vat)) :
    ∃ x y, DrawOp.text (toString (itemsOf p.items).length) x y 10 ∈ o := by
  simp only [pdfPass1] at h
  split at h
  next => simp at h
  next itemOps yL heq =>
    split at h
    next => simp at h
    next item_sum hsum =>
      split at h
      next => simp at h
      next vatV hvat =>
        simp only [Except.ok.injEq, Prod.mk.injEq] at h
        obtain ⟨ho, -⟩ := h
        refine ⟨width_pt - pdfMargin - tw (toString (itemsOf p.items).length) 10,
          yL - 2 - pdfLineH, ?_⟩
        rw [← ho]
        simp [pdfRight, List.mem_append, List.mem_cons]

/-- C10: a payload whose `items` field is absent, null or otherwise
falsy is treated by both entry points as carrying the empty item list:
the image build always succeeds with item sum 0 and renders "0" in the
items-count row; the PDF build renders the same whenever it succeeds,
and does succeed whenever the payload total is absent-or-numeric — no
malformed-payload error is reported for a falsy `items`. -/
theorem C10_falsy_items_as_empty :
    ∀ (tw : TW) (W : ℚ) (p : Payload) (now : String),
      (p.items = .absent ∨ p.items = .null ∨ p.items = .falsy) →
      itemsOf p.items = []
      ∧ (∃ r, build_receipt_image tw W p now = .ok r ∧ r.itemSum = 0
          ∧ ∃ x y, DrawOp.text "0" x y 22 ∈ r.ops1)
      ∧ (∀ r, build_receipt_pdf tw p now = .ok r → r.itemSum = 0
          ∧ ∃ x y, DrawOp.text "0" x y 10 ∈ r.ops1)
      ∧ (optNum p.total = true → ∃ r, build_receipt_pdf tw p now = .ok r) := by
  intro tw W p now hitems
  have hempty : itemsOf p.items = [] := by
    rcases hitems with h | h | h <;> rw [h] <;> rfl
  have hzero : toString (itemsOf p.items).length = "0" := by rw [hempty]; rfl
  have hqp : qpNumeric (itemsOf p.items) = true := by rw [hempty]; rfl
  refine ⟨hempty, ?_, ?_, ?_⟩
  · obtain ⟨o, yE, s, sub, vat, h1⟩ := imgPass1_total tw W p (p.date.getD now) hqp
    have hb : build_receipt_image tw W p now
        = .ok ⟨o, o, yE, max (yE + imgMargin + 10) 800, s, sub, vat⟩ := by
      simp only [build_receipt_image, h1, imgPass2_of_pass1 h1]
    refine ⟨_, hb, ?_, ?_⟩
    · obtain ⟨⟨io, y1, y2, hL, -, -⟩, -, -⟩ := imgPass1_parts h1
      rw [hempty] at hL
      simp only [imgItemLoop1, Except.ok.injEq, Prod.mk.injEq] at hL
      exact hL.2.2.symm
    · have hc := imgPass1_count_row h1
      rw [hzero] at hc
      exact hc
  · intro r hb
    obtain ⟨h1, -⟩ := build_receipt_pdf_ok hb
    constructor
    · obtain ⟨-, hsum, -, -⟩ := pdfPass1_parts h1
      rw [hempty] at hsum
      simp only [pdfItemSum, Except.ok.injEq] at hsum
      exact hsum.symm
    · have hc := pdfPass1_count_row h1
      rw [hzero] at hc
      exact hc
  · intro hT
    have hin : itemsNumeric (itemsOf p.items) = true := by rw [hempty]; rfl
    have hv : p.vat = none → (p.total.getD (.num 0)).isNum = true := by
      intro _
      cases hTT : p.total with
      | none => rfl
      | some v =>
        cases v with
        | num q => rfl
        | bad => rw [hTT] at hT; simp [optNum] at hT
    exact build_receipt_pdf_total tw p now hqp hin hv

/-- Witness for C10 at the empty payload (items key absent): the items
list used is empty. -/
theorem C10_falsy_items_as_empty_witness :
    itemsOf pEmpty.items = [] :=
  (C10_falsy_items_as_empty tw0 576 pEmpty "01/01/2024" (Or.inl rfl)).1

/-- Fixture payload with one item whose explicit total is non-numeric
while all other monetary fields are numeric. -/
def pC9 : Payload :=
  ⟨none, none, none, none, none, none, .list [⟨"X", some (.num 1), some (.num 2), some .bad⟩],
   some (.num 6), none, some (.num 5), some (.num 1)⟩

/-- C9 counterexample: on an item with a non-numeric total the two
entry points diverge — the image path skips the unparseable value and
completes with item sum 0, while the PDF path raises out of its
unguarded item-sum accumulation, so the two paths do not compute the
same figures for every payload. -/
theorem C9_paths_diverge_on_unparsable_total :
    imgItemSumOf tw0 576 pC9 "01/01/2024" = some 0
    ∧ build_receipt_pdf tw0 pC9 "01/01/2024" = .error () := by
  constructor
  · simp [imgItemSumOf, build_receipt_image, imgPass1, imgPass2, imgItemLoop1, imgItemLoop2,
      itemsOf, pC9, imgVatDerived, pyFloat, pyMul, metaStr, pyOr0, Except.toOption]
  · simp [build_receipt_pdf, pdfPass1, pdfItemLoop1, pdfItemSum, itemsOf, pC9, pyMul,
      pyAdd, metaStr, Option.getD]

/-- C9 amended: whenever every item's monetary fields are numeric, the
two entry points compute identical itemSum, subtotal and VAT figures
(whenever both produce output), and the two amount formatters are the
same function, so the formatted amount strings coincide as well. -/
theorem C9_amended_numeric_agreement :
    (∀ (tw : TW) (W : ℚ) (p : Payload) (now : String) (tI : ℚ) (sI vI : MVal)
        (tP : ℚ) (sP vP : MVal),
        itemsNumeric (itemsOf p.items) = true →
        imgItemSumOf tw W p now = some tI →
        imgSubtotalOf tw W p now = some sI →
        imgVatOf tw W p now = some vI →
        pdfItemSumOf tw p now = some tP →
        pdfSubtotalOf tw p now = some sP →
        pdfVatOf tw p now = some vP →
        tI = tP ∧ sI = sP ∧ vI = vP)
    ∧ (∀ v, _fmt_amount v = fmt_amount v) := by
  constructor
  · intro tw W p now tI sI vI tP sP vP hnum h1 h2 h3 h4 h5 h6
    cases hbI : build_receipt_image tw W p now with
    | error e => simp [imgItemSumOf, hbI, Except.toOption] at h1
    | ok rI =>
    cases hbP : build_receipt_pdf tw p now with
    | error e => simp [pdfItemSumOf, hbP, Except.toOption] at h4
    | ok rP =>
    simp [imgItemSumOf, hbI, Except.toOption] at h1
    simp [imgSubtotalOf, hbI, Except.toOption] at h2
    simp [imgVatOf, hbI, Except.toOption] at h3
    simp [pdfItemSumOf, hbP, Except.toOption] at h4
    simp [pdfSubtotalOf, hbP, Except.toOption] at h5
    simp [pdfVatOf, hbP, Except.toOption] at h6
    obtain ⟨hI1, -, -⟩ := build_receipt_image_ok hbI
    obtain ⟨hP1, -⟩ := build_receipt_pdf_ok hbP
    obtain ⟨⟨io, y1, y2, hLI, -, -⟩, hsubI, hvatI⟩ := imgPass1_parts hI1
    obtain ⟨-, hsumP, hsubP, hvatP⟩ := pdfPass1_parts hP1
    have hspecI : rI.itemSum = specItemSum (itemsOf p.items) := by
      have := imgItemLoop1_sum tw W _ _ _ _ _ _ hnum hLI
      rw [this, zero_add]
    have hspecP : rP.itemSum = specItemSum (itemsOf p.items) := by
      rw [pdfItemSum_numeric _ _ hnum] at hsumP
      simp only [Except.ok.injEq] at hsumP
      rw [← hsumP, zero_add]
    have hT : tI = tP := by rw [← h1, ← h4, hspecI, hspecP]
    have hS : rI.subtotalV = rP.subtotalV := by
      rw [hsubI, hsubP]
      cases hps : p.subtotal with
      | some v => rfl
      | none => rw [hspecI, hspecP]
    have hV : rI.vatV = rP.vatV := by
      cases hpv : p.vat with
      | some v =>
        rw [hpv] at hvatI hvatP
        simp only [Except.ok.injEq] at hvatP
        rw [hvatI, ← hvatP]
      | none =>
        rw [hpv] at hvatI hvatP
        unfold pdfVatDerived at hvatP
        cases hTT : p.total.getD (.num 0) with
        | bad => rw [hTT] at hvatP; simp at hvatP
        | num t =>
          rw [hTT] at hvatP
          simp only [Except.ok.injEq] at hvatP
          rw [hvatI, imgVatDerived, hTT, ← hvatP, hS]
          simp [pyFloat]
    exact ⟨hT, by rw [← h2, ← h5, hS], by rw [← h3, ← h6, hV]⟩
  · intro v
    rfl

/-- Witness for C9 amended at the two-item numeric fixture: both paths
report item sum 17, derived subtotal 17 and derived VAT 0. -/
theorem C9_amended_numeric_agreement_witness :
    (17 : ℚ) = 17 ∧ MVal.num 17 = MVal.num 17 ∧ MVal.num 0 = MVal.num 0 :=
  C9_amended_numeric_agreement.1 tw0 576 pC3 "01/01/2024" 17 (.num 17) (.num 0)
    17 (.num 17) (.num 0) (by decide)
    (by simp [imgItemSumOf, build_receipt_image, imgPass1, imgPass2, imgItemLoop1,
          imgItemLoop2, itemsOf, pC3, withItems, pEmpty, lC3, imgVatDerived, pyFloat,
          pyMul, metaStr, pyOr0, Except.toOption]; norm_num)
    (by simp [imgSubtotalOf, build_receipt_image, imgPass1, imgPass2, imgItemLoop1,
          imgItemLoop2, itemsOf, pC3, withItems, pEmpty, lC3, imgVatDerived, pyFloat,
          pyMul, metaStr, pyOr0, Except.toOption]; norm_num)
    (by simp [imgVatOf, build_receipt_image, imgPass1, imgPass2, imgItemLoop1,
          imgItemLoop2, itemsOf, pC3, withItems, pEmpty, lC3, imgVatDerived, pyFloat,
          pyMul, metaStr, pyOr0, Except.toOption]; norm_num)
    (by simp [pdfItemSumOf, build_receipt_pdf, pdfPass1, pdfPass2, pdfItemLoop1,
          pdfItemLoop2, pdfItemSum, itemsOf, pC3, withItems, pEmpty, lC3, pdfVatDerived,
          pyFloat, pyMul, pyAdd, metaStr, pyOr0, Except.toOption]; norm_num)
    (by simp [pdfSubtotalOf, build_receipt_pdf, pdfPass1, pdfPass2, pdfItemLoop1,
          pdfItemLoop2, pdfItemSum, itemsOf, pC3, withItems, pEmpty, lC3, pdfVatDerived,
          pyFloat, pyMul, pyAdd, metaStr, pyOr0, Except.toOption]; norm_num)
    (by simp [pdfVatOf, build_receipt_pdf, pdfPass1, pdfPass2, pdfItemLoop1,
          pdfItemLoop2, pdfItemSum, itemsOf, pC3, withItems, pEmpty, lC3, pdfVatDerived,
          pyFloat, pyMul, pyAdd, metaStr, pyOr0, Except.toOption]; norm_num)

/-- C1: evaluation at the empty payload. The image renderer's two
passes emit identical op sequences (proved here via the general
pass-2-of-pass-1 agreement), but the PDF renderer's passes diverge: if
pass 2 re-executed the pass-1 sequence from its own starting cursor,
its ops would be exactly the pass-1 ops shifted by the height
difference `final_height - temp_height`; instead, pass 1 omits the line
advance between the Items-count row and the Subtotal row (source lines
419-436) while pass 2 performs it (source lines 505-507), so from the
Subtotal row on the relative vertical positions differ by one line
height and the claimed pass-1/pass-2 identity fails for the PDF
renderer. -/
theorem C1_pdf_pass_divergence :
    imgOps2Of tw0 576 pEmpty "01/01/2024" = imgOps1Of tw0 576 pEmpty "01/01/2024"
    ∧ (pdfOps1Of tw0 pEmpty "01/01/2024").isSome = true
    ∧ pdfOps2Of tw0 pEmpty "01/01/2024"
        ≠ (pdfOps1Of tw0 pEmpty "01/01/2024").map
            (List.map (DrawOp.shiftY (100 * mmQ - pdfTempH))) := by
  refine ⟨?_, ?_, ?_⟩
  · cases hb : build_receipt_image tw0 576 pEmpty "01/01/2024" with
    | error e => simp [imgOps1Of, imgOps2Of, hb, Except.toOption]
    | ok r =>
      simp [imgOps1Of, imgOps2Of, hb, Except.toOption, (build_receipt_image_ok hb).2.2]
  · simp [pdfOps1Of, build_receipt_pdf, pdfPass1, pdfPass2, pdfItemLoop1, pdfItemLoop2,
      pdfItemSum, itemsOf, pEmpty, pdfVatDerived, pyFloat, pyOr0, Except.toOption]
  · intro h
    simp [pdfOps1Of, pdfOps2Of, build_receipt_pdf, pdfPass1, pdfPass2, pdfItemLoop1,
      pdfItemLoop2, pdfItemSum, itemsOf, pEmpty, pdfVatDerived, pyFloat, pyOr0,
      Except.toOption, DrawOp.shiftY, pdfCenter, pdfLeft, pdfRight, pdfTempH, mmQ,
      pdfMargin, pdfLineH, width_pt] at h
    norm_num at h

end Receipt

